import Mathlib

/-!
# Publish adapter and delivery dispatcher of the pub/sub processor

A shallow embedding of `pkg/runtime/processor/pubsub/publish.go`
(`Publish`, `BulkPublish`, `publishMessageHTTP`, `publishMessageGRPC`).

Conventions of the embedding:

* Go errors are values of `GoError`; a Go `error` that may be `nil` is an
  `Option GoError`.
* Every interaction with a collaborator (access check, resiliency runner,
  backend component, application channel, tracing, monitoring, logger) is
  appended to a call history, the `World`.  Collaborators are fields of the
  receiver `pubsub`; what they answer may depend on the history so far.
* A Go function that can panic returns a `GoResult`.
* Wall-clock measurements (`time.Now`, `diag.ElapsedSince`) and the
  context argument are left out; the read lock and the deferred `Close`
  calls are resource management and are not recorded.
-/

namespace Dapr

/-! ## Errors -/

/-- Go error values that occur in `publish.go`.  `errorsNew` is
`errors.New(msg)` and also stands for any error of a collaborator that
carries no gRPC status; `statusError` is an error carrying a gRPC status
code; `NotFoundError`, `NotAllowedError` and `ErrMessageDropped` are the
error values of package `pkg/runtime/pubsub`; `RetriableNil` and
`Retriable e` are the retriable marker of package `pkg/runtime/errors`
around nil and around `e`; `Errorf text e` is
`fmt.Errorf(text ++ "%w", e)`. -/
inductive GoError where
  | errorsNew (msg : String)
  | statusError (code : Nat) (msg : String)
  | NotFoundError (PubsubName : String)
  | NotAllowedError (Topic : String) (ID : String)
  | ErrMessageDropped
  | RetriableNil
  | Retriable (err : GoError)
  | Errorf (text : String) (wrapped : GoError)
  deriving DecidableEq, Repr

/-- Modelled from the spec: `rterrors.NewRetriable` (package
`pkg/runtime/errors`, outside the sources at hand) builds the typed
retriable marker around an error that may be nil. -/
def NewRetriable : Option GoError → GoError
  | none => GoError.RetriableNil
  | some e => GoError.Retriable e

/-- The next error of the `Unwrap` chain. -/
def GoError.Unwrap : GoError → Option GoError
  | GoError.Retriable e => some e
  | GoError.Errorf _ e => some e
  | _ => none

/-- Whether the error is, or wraps, the retriable marker
(`errors.As(err, &retriable)`). -/
def GoError.wrapsRetriable : GoError → Bool
  | GoError.RetriableNil => true
  | GoError.Retriable _ => true
  | GoError.Errorf _ e => e.wrapsRetriable
  | _ => false

/-- Result of a Go call that may panic. -/
inductive GoResult (α : Type) where
  | returned (value : α)
  | panicked
  deriving DecidableEq, Repr

/-! ## Data model -/

/-- The request `contribpubsub.PublishRequest`. -/
structure PublishRequest where
  Data : List UInt8
  PubsubName : String
  Topic : String
  Metadata : List (String × String)
  ContentType : Option String
  deriving DecidableEq, Repr

/-- One entry `contribpubsub.BulkMessageEntry`. -/
structure BulkMessageEntry where
  EntryId : String
  Event : List UInt8
  ContentType : String
  Metadata : List (String × String)
  deriving DecidableEq, Repr

/-- The request `contribpubsub.BulkPublishRequest`. -/
structure BulkPublishRequest where
  Entries : List BulkMessageEntry
  PubsubName : String
  Topic : String
  Metadata : List (String × String)
  deriving DecidableEq, Repr

/-- One `contribpubsub.BulkPublishResponseFailedEntry`. -/
structure BulkPublishResponseFailedEntry where
  EntryId : String
  Error : GoError
  deriving DecidableEq, Repr

/-- The response `contribpubsub.BulkPublishResponse`; its zero value has no
failed entries. -/
structure BulkPublishResponse where
  FailedEntries : List BulkPublishResponseFailedEntry
  deriving DecidableEq, Repr

/-- A value stored in the cloud event map (`map[string]interface{}`): a
string, or a value of another dynamic type together with its `%v`
rendering. -/
inductive CEValue where
  | str (s : String)
  | other (shown : String)
  deriving DecidableEq, Repr

/-- The message `rtpubsub.SubscribedMessage`. -/
structure SubscribedMessage where
  CloudEvent : List (String × CEValue)
  Data : List UInt8
  Topic : String
  Metadata : List (String × String)
  Path : String
  PubSub : String
  deriving DecidableEq, Repr

/-- The request built by `invokev1.NewInvokeMethodRequest(...)` and its
`With...` setters. -/
structure InvokeMethodRequest where
  Method : String
  Verb : String
  RawData : List UInt8
  ContentType : String
  Metadata : List (String × String)
  deriving DecidableEq, Repr

/-- What `publishMessageHTTP` reads of an `invokev1.InvokeMethodResponse`:
the status code (an int32) and the body. -/
structure InvokeMethodResponse where
  StatusCode : Int
  RawData : String
  deriving DecidableEq, Repr

/-- The envelope `runtimev1.TopicEventRequest` handed to the application
callback. -/
structure TopicEventRequest where
  Id : String
  Topic : String
  PubsubName : String
  Data : List UInt8
  Path : String
  deriving DecidableEq, Repr

/-- The reply `runtimev1.TopicEventResponse`; `Status` is the wire value of
the status enum. -/
structure TopicEventResponse where
  Status : Int
  deriving DecidableEq, Repr

/-- Log levels used by `publish.go`. -/
inductive LogLevel where
  | debug
  | warn
  | error
  deriving DecidableEq, Repr

/-- One recorded interaction with a collaborator. -/
inductive Call where
  | isOperationAllowed (pubsubName topic : String) (scopedTopics : List String)
  | policyRunner (pubsubName : String)
  | componentPublish (req : PublishRequest)
  | ApplyBulkPublishResiliency (req : BulkPublishRequest) (pubsubName : String)
      (native : Bool)
  | StartInternalCallbackSpan (name traceID : String)
  | AddAttributesToSpan (topic : String)
  | UpdateSpanStatusFromHTTPStatus (code : Int)
  | UpdateSpanStatusFromGRPCError (err : Option GoError)
  | spanEnd
  | InvokeMethod (req : InvokeMethodRequest)
  | GRPCEnvelopeFromSubscriptionMessage (msg : SubscribedMessage)
  | GetAppClient
  | OnTopicEvent (envelope : TopicEventRequest) (metadata : List (String × String))
  | PubsubIngressEvent (component processStatus status topic : String)
  | log (level : LogLevel)
  deriving DecidableEq, Repr

/-- The history of interactions, oldest first. -/
abbrev World := List Call

/-- A unit of work handed to the resiliency runner. -/
abbrev Operation := World → Option GoError × World

/-- A policy runner as returned by `resiliency.NewRunner`: it decides how
often and whether the operation is run. -/
abbrev Runner := Operation → World → Option GoError × World

/-- The runner that runs the operation once and passes its result on. -/
def Runner.identity : Runner := fun op w => op w

/-- A `contribpubsub.BulkPublisher`. -/
structure BulkPublisher where
  BulkPublish : BulkPublishRequest → World → BulkPublishResponse × Option GoError

/-- A backend component `contribpubsub.PubSub`: its single-message publish,
its advertised features and, if it implements the `BulkPublisher`
interface, its bulk publish. -/
structure Component where
  Publish : PublishRequest → World → Option GoError
  Features : List String
  bulkPublisher : Option BulkPublisher

/-- The component-store entry `compstore.PubsubItem`. -/
structure PubsubItem where
  Component : Component
  ScopedSubscriptions : List String
  ScopedPublishings : List String
  AllowedTopics : List String
  ProtectedTopics : List String
  NamespaceScoped : Bool

/-- The receiver `*pubsub` with the collaborators that `publish.go` calls
through it or by package name.  Their bodies are outside
`publish.go`, so each is a field and the theorems hold for every choice:
the registry lookup `compStore.GetPubSub`, the access check
`isOperationAllowed`, the runner `resiliency.NewRunner` of the outbound
pub/sub policy of a backend name, `rtpubsub.ApplyBulkPublishResiliency`,
`rtpubsub.NewDefaultBulkPublisher`, `diag.StartInternalCallbackSpan`
(answering whether the span it returns is non-nil), the app channel's
`InvokeMethod`, the JSON decoding of a reply body into the status field of
`contribpubsub.AppResponse`, `rtpubsub.GRPCEnvelopeFromSubscriptionMessage`
(answering the envelope and whether the span is non-nil), the app client
lookup `grpc.GetAppClient`, the application callback `OnTopicEvent`, and
`status.FromError` (answering the status code and the `ok` flag). -/
structure pubsub where
  id : String
  namespaceName : String
  GetPubSub : String → Option PubsubItem
  isOperationAllowed : String → String → List String → Bool
  NewRunner : String → Runner
  ApplyBulkPublishResiliency :
    BulkPublishRequest → String → BulkPublisher → World →
      (BulkPublishResponse × Option GoError) × World
  NewDefaultBulkPublisher : Component → BulkPublisher
  StartInternalCallbackSpan : String → String → World → Bool
  InvokeMethod : InvokeMethodRequest → World → InvokeMethodResponse × Option GoError
  Decode : String → Except GoError String
  GRPCEnvelopeFromSubscriptionMessage :
    SubscribedMessage → World → Except GoError (TopicEventRequest × Bool)
  GetAppClient : World → Option GoError
  OnTopicEvent :
    TopicEventRequest → List (String × String) → World →
      Option TopicEventResponse × Option GoError
  FromError : GoError → Nat × Bool

/-! ## Constants -/

/-- The feature tag `contribpubsub.FeatureBulkPublish`. -/
def FeatureBulkPublish : String := "BULK_PUBSUB"

/-- The reply status `contribpubsub.Success`. -/
def Success : String := "SUCCESS"

/-- The reply status `contribpubsub.Retry`. -/
def Retry : String := "RETRY"

/-- The reply status `contribpubsub.Drop`. -/
def Drop : String := "DROP"

/-- The cloud event key `contribpubsub.TraceParentField`. -/
def TraceParentField : String := "traceparent"

/-- The cloud event key `contribpubsub.TraceIDField`. -/
def TraceIDField : String := "traceid"

/-- The cloud event key `contribpubsub.IDField`. -/
def IDField : String := "id"

/-- The cloud event key `contribpubsub.TopicField`. -/
def TopicField : String := "topic"

/-- The content type `contenttype.CloudEventContentType`. -/
def CloudEventContentType : String := "application/cloudevents+json"

/-- The status code `http.StatusNotFound`. -/
def StatusNotFound : Int := 404

/-- The gRPC code `codes.Unimplemented`. -/
def Unimplemented : Nat := 12

/-- Modelled from the spec: the status enum of `runtimev1.TopicEventResponse`
is declared in the generated protobuf package, outside the sources at hand;
`SUCCESS` is the default/zero value. -/
def TopicEventResponse_SUCCESS : Int := 0

/-- Modelled from the spec: the `RETRY` value of the reply status enum
(generated protobuf package, outside the sources at hand). -/
def TopicEventResponse_RETRY : Int := 1

/-- Modelled from the spec: the `DROP` value of the reply status enum
(generated protobuf package, outside the sources at hand). -/
def TopicEventResponse_DROP : Int := 2

/-- The getter `res.GetStatus()`: nil-safe, a nil reply reads as the zero
value. -/
def GetStatus : Option TopicEventResponse → Int
  | none => 0
  | some r => r.Status

/-- ASCII lower-casing, `strings.ToLower` on the status constants. -/
def ToLower (s : String) : String := String.mk (s.data.map Char.toLower)

/-- Reading `cloudEvent[key]`: `none` is the nil interface value. -/
def CloudEventGet (cloudEvent : List (String × CEValue)) (key : String) : Option CEValue :=
  cloudEvent.lookup key

/-- The `%v` rendering of a cloud event field. -/
def fmtV : Option CEValue → String
  | none => "<nil>"
  | some (CEValue.str s) => s
  | some (CEValue.other shown) => shown

/-- The sentinel error `io.EOF`. -/
def io_EOF : GoError := GoError.errorsNew "EOF"

/-- The ingress events among the recorded calls, as
`(component, processStatus, status, topic)`, oldest first. -/
def ingressEvents (w : World) : List (String × String × String × String) :=
  w.filterMap fun c =>
    match c with
    | Call.PubsubIngressEvent component processStatus status topic =>
        some (component, processStatus, status, topic)
    | _ => none

/-! ## The publish adapter -/

/-- The method `(p *pubsub) Publish`.  The request is passed by pointer and
its topic may be rewritten, so the request as left behind is returned next
to the error. -/
def Publish (p : pubsub) (req : PublishRequest) (w : World) :
    Option GoError × PublishRequest × World :=
  match p.GetPubSub req.PubsubName with
  | none => (some (GoError.NotFoundError req.PubsubName), req, w)
  | some ps =>
    let w1 := w ++ [Call.isOperationAllowed req.PubsubName req.Topic ps.ScopedPublishings]
    if !p.isOperationAllowed req.PubsubName req.Topic ps.ScopedPublishings then
      (some (GoError.NotAllowedError req.Topic p.id), req, w1)
    else
      let req1 : PublishRequest :=
        if ps.NamespaceScoped then { req with Topic := p.namespaceName ++ req.Topic } else req
      let policyRunner := p.NewRunner req1.PubsubName
      let (err, w2) :=
        policyRunner
          (fun wi => (ps.Component.Publish req1 wi, wi ++ [Call.componentPublish req1]))
          (w1 ++ [Call.policyRunner req1.PubsubName])
      (err, req1, w2)

/-- The method `(p *pubsub) BulkPublish`.  The type assertion
`ps.Component.(contribpubsub.BulkPublisher)` panics when the component
advertises the feature without implementing the interface. -/
def BulkPublish (p : pubsub) (req : BulkPublishRequest) (w : World) :
    GoResult (BulkPublishResponse × Option GoError) × World :=
  match p.GetPubSub req.PubsubName with
  | none =>
    (GoResult.returned ({ FailedEntries := [] }, some (GoError.NotFoundError req.PubsubName)), w)
  | some ps =>
    let w1 := w ++ [Call.isOperationAllowed req.PubsubName req.Topic ps.ScopedPublishings]
    if !p.isOperationAllowed req.PubsubName req.Topic ps.ScopedPublishings then
      (GoResult.returned ({ FailedEntries := [] }, some (GoError.NotAllowedError req.Topic p.id)),
        w1)
    else
      let policyDef := req.PubsubName
      if FeatureBulkPublish ∈ ps.Component.Features then
        match ps.Component.bulkPublisher with
        | none => (GoResult.panicked, w1)
        | some bulkPublisher =>
          let (r, w2) :=
            p.ApplyBulkPublishResiliency req policyDef bulkPublisher
              (w1 ++ [Call.ApplyBulkPublishResiliency req policyDef true])
          (GoResult.returned r, w2)
      else
        let w2 := w1 ++ [Call.log LogLevel.debug]
        let defaultBulkPublisher := p.NewDefaultBulkPublisher ps.Component
        let (r, w3) :=
          p.ApplyBulkPublishResiliency req policyDef defaultBulkPublisher
            (w2 ++ [Call.ApplyBulkPublishResiliency req policyDef false])
        (GoResult.returned r, w3)

/-! ## The delivery dispatcher -/

/-- The trace field read at lines 106 to 109 of `publish.go`: the
trace-parent field or, when that is nil, the trace-id field. -/
def iTraceID (cloudEvent : List (String × CEValue)) : Option CEValue :=
  match CloudEventGet cloudEvent TraceParentField with
  | none => CloudEventGet cloudEvent TraceIDField
  | some v => some v

/-- The request to the application built at lines 99 to 103 of
`publish.go`. -/
def newInvokeRequest (msg : SubscribedMessage) : InvokeMethodRequest :=
  { Method := msg.Path, Verb := "POST", RawData := msg.Data,
    ContentType := CloudEventContentType, Metadata := msg.Metadata }

/-- Lines 106 to 114 of `publish.go`: start a span when the cloud event
carries a trace field.  The type assertion `iTraceID.(string)` panics on a
trace field that is not a string; otherwise the result tells whether the
span variable is non-nil. -/
def startSpan (p : pubsub) (msg : SubscribedMessage) (w : World) : GoResult (Bool × World) :=
  match iTraceID msg.CloudEvent with
  | none => GoResult.returned (false, w)
  | some (CEValue.other _) => GoResult.panicked
  | some (CEValue.str traceID) =>
    GoResult.returned
      (p.StartInternalCallbackSpan ("pubsub/" ++ msg.Topic) traceID w,
        w ++ [Call.StartInternalCallbackSpan ("pubsub/" ++ msg.Topic) traceID])

/-- The method `(p *pubsub) publishMessageHTTP`. -/
def publishMessageHTTP (p : pubsub) (msg : SubscribedMessage) (w : World) :
    GoResult (Option GoError) × World :=
  let cloudEvent := msg.CloudEvent
  let req := newInvokeRequest msg
  let started := startSpan p msg w
  match started with
  | GoResult.panicked => (GoResult.panicked, w)
  | GoResult.returned (span, w1) =>
    let (resp, err) := p.InvokeMethod req w1
    let w2 := w1 ++ [Call.InvokeMethod req]
    match err with
    | some e =>
      (GoResult.returned (some (GoError.Errorf
          "error returned from app channel while sending pub/sub event to app: "
          (NewRetriable (some e)))),
        w2 ++ [Call.PubsubIngressEvent msg.PubSub (ToLower Retry) "" msg.Topic])
    | none =>
      let statusCode := resp.StatusCode
      let w3 :=
        if span then
          w2 ++ [Call.AddAttributesToSpan msg.Topic,
                 Call.UpdateSpanStatusFromHTTPStatus statusCode, Call.spanEnd]
        else w2
      if statusCode ≥ 200 ∧ statusCode ≤ 299 then
        match p.Decode resp.RawData with
        | Except.error derr =>
          let w4 := if derr = io_EOF then w3 ++ [Call.log LogLevel.debug]
                    else w3 ++ [Call.log LogLevel.debug]
          (GoResult.returned none,
            w4 ++ [Call.PubsubIngressEvent msg.PubSub (ToLower Success) "" msg.Topic])
        | Except.ok status =>
          if status = "" ∨ status = Success then
            (GoResult.returned none,
              w3 ++ [Call.PubsubIngressEvent msg.PubSub (ToLower Success) "" msg.Topic])
          else if status = Retry then
            (GoResult.returned (some (GoError.Errorf
                ("RETRY status returned from app while processing pub/sub event "
                  ++ fmtV (CloudEventGet cloudEvent IDField) ++ ": ")
                (NewRetriable none))),
              w3 ++ [Call.PubsubIngressEvent msg.PubSub (ToLower Retry) "" msg.Topic])
          else if status = Drop then
            (GoResult.returned (some GoError.ErrMessageDropped),
              w3 ++ [Call.PubsubIngressEvent msg.PubSub (ToLower Drop) (ToLower Success)
                       msg.Topic,
                     Call.log LogLevel.warn])
          else
            (GoResult.returned (some (GoError.Errorf
                ("unknown status returned from app while processing pub/sub event "
                  ++ fmtV (CloudEventGet cloudEvent IDField) ++ ", status: " ++ status
                  ++ ", err: ")
                (NewRetriable none))),
              w3 ++ [Call.PubsubIngressEvent msg.PubSub (ToLower Retry) "" msg.Topic])
      else
        let body := resp.RawData
        if statusCode = StatusNotFound then
          (GoResult.returned none,
            w3 ++ [Call.log LogLevel.error,
                   Call.PubsubIngressEvent msg.PubSub (ToLower Drop) "" msg.Topic])
        else
          let errMsg :=
            "retriable error returned from app while processing pub/sub event "
              ++ fmtV (CloudEventGet cloudEvent IDField) ++ ", topic: "
              ++ fmtV (CloudEventGet cloudEvent TopicField) ++ ", body: " ++ body
              ++ ". status code returned: " ++ toString statusCode
          (GoResult.returned (some (NewRetriable (some (GoError.errorsNew errMsg)))),
            w3 ++ [Call.log LogLevel.warn,
                   Call.PubsubIngressEvent msg.PubSub (ToLower Retry) "" msg.Topic])

/-- The method `(p *pubsub) publishMessageGRPC`. -/
def publishMessageGRPC (p : pubsub) (msg : SubscribedMessage) (w : World) :
    Option GoError × World :=
  let cloudEvent := msg.CloudEvent
  let w1 := w ++ [Call.GRPCEnvelopeFromSubscriptionMessage msg]
  match p.GRPCEnvelopeFromSubscriptionMessage msg w with
  | Except.error err => (some err, w1)
  | Except.ok (envelope, span) =>
    let w2 := w1 ++ [Call.GetAppClient]
    match p.GetAppClient w1 with
    | some err => (some (GoError.Errorf "error while getting app client: " err), w2)
    | none =>
      let (res, err) := p.OnTopicEvent envelope msg.Metadata w2
      let w3 := w2 ++ [Call.OnTopicEvent envelope msg.Metadata]
      let w4 :=
        if span then
          w3 ++ [Call.AddAttributesToSpan envelope.Topic,
                 Call.UpdateSpanStatusFromGRPCError err, Call.spanEnd]
        else w3
      match err with
      | some e =>
        let (errStatus, hasErrStatus) := p.FromError e
        if hasErrStatus ∧ errStatus = Unimplemented then
          (none,
            w4 ++ [Call.log LogLevel.warn,
                   Call.PubsubIngressEvent msg.PubSub (ToLower Drop) "" msg.Topic])
        else
          (some (GoError.Errorf
              ("error returned from app while processing pub/sub event "
                ++ fmtV (CloudEventGet cloudEvent IDField) ++ ": ")
              (NewRetriable (some e))),
            w4 ++ [Call.log LogLevel.debug,
                   Call.PubsubIngressEvent msg.PubSub (ToLower Retry) "" msg.Topic])
      | none =>
        if GetStatus res = TopicEventResponse_SUCCESS then
          (none, w4 ++ [Call.PubsubIngressEvent msg.PubSub (ToLower Success) "" msg.Topic])
        else if GetStatus res = TopicEventResponse_RETRY then
          (some (GoError.Errorf
              ("RETRY status returned from app while processing pub/sub event "
                ++ fmtV (CloudEventGet cloudEvent IDField) ++ ": ")
              (NewRetriable none)),
            w4 ++ [Call.PubsubIngressEvent msg.PubSub (ToLower Retry) "" msg.Topic])
        else if GetStatus res = TopicEventResponse_DROP then
          (some GoError.ErrMessageDropped,
            w4 ++ [Call.log LogLevel.warn,
                   Call.PubsubIngressEvent msg.PubSub (ToLower Drop) (ToLower Success)
                     msg.Topic])
        else
          (some (GoError.Errorf
              ("unknown status returned from app while processing pub/sub event "
                ++ fmtV (CloudEventGet cloudEvent IDField) ++ ", status: "
                ++ toString (GetStatus res) ++ ", err: ")
              (NewRetriable none)),
            w4 ++ [Call.PubsubIngressEvent msg.PubSub (ToLower Retry) "" msg.Topic])

/-! ## A sample deployment, used to instantiate the theorems -/

/-- A backend component that accepts every publish and has no native bulk
publish. -/
def sampleComponent : Component :=
  { Publish := fun _ _ => none, Features := [], bulkPublisher := none }

/-- A namespace-scoped backend whose publishing scope is the topic
`orders`. -/
def sampleItem : PubsubItem :=
  { Component := sampleComponent, ScopedSubscriptions := [],
    ScopedPublishings := ["orders"], AllowedTopics := [], ProtectedTopics := [],
    NamespaceScoped := true }

/-- A receiver with one backend `kafka`, an identity runner, tracing on, an
application that answers every HTTP delivery with `reply` (whose body
decodes to `decoded`) and every RPC delivery with `grpcReply`. -/
def samplePubsub (reply : InvokeMethodResponse × Option GoError)
    (decoded : Except GoError String)
    (grpcReply : Option TopicEventResponse × Option GoError) : pubsub :=
  { id := "app1"
    namespaceName := "ns1"
    GetPubSub := fun name => if name = "kafka" then some sampleItem else none
    isOperationAllowed := fun _ topic scopedTopics =>
      scopedTopics.isEmpty || scopedTopics.contains topic
    NewRunner := fun _ => Runner.identity
    ApplyBulkPublishResiliency := fun req _ bp w => (bp.BulkPublish req w, w)
    NewDefaultBulkPublisher := fun _ => { BulkPublish := fun _ _ => ({ FailedEntries := [] }, none) }
    StartInternalCallbackSpan := fun _ _ _ => true
    InvokeMethod := fun _ _ => reply
    Decode := fun _ => decoded
    GRPCEnvelopeFromSubscriptionMessage := fun msg _ =>
      Except.ok
        ({ Id := "e1", Topic := msg.Topic, PubsubName := msg.PubSub, Data := msg.Data,
           Path := msg.Path }, true)
    GetAppClient := fun _ => none
    OnTopicEvent := fun _ _ _ => grpcReply
    FromError := fun e =>
      match e with
      | GoError.statusError code _ => (code, true)
      | _ => (2, false) }

/-- The receiver `samplePubsub` with an application that is not looked at. -/
def samplePublisher : pubsub :=
  samplePubsub ({ StatusCode := 200, RawData := "" }, none) (Except.error io_EOF) (none, none)

/-- A publish request to the backend `name` on `topic`. -/
def sampleRequest (name topic : String) : PublishRequest :=
  { Data := [], PubsubName := name, Topic := topic, Metadata := [], ContentType := none }

/-- A one-entry bulk publish request to the backend `name` on `topic`. -/
def sampleBulkRequest (name topic : String) : BulkPublishRequest :=
  { Entries := [{ EntryId := "1", Event := [], ContentType := "text/plain", Metadata := [] }],
    PubsubName := name, Topic := topic, Metadata := [] }

/-- A subscribed message of the backend `kafka` on topic `orders` with the
given cloud event. -/
def sampleMessage (cloudEvent : List (String × CEValue)) : SubscribedMessage :=
  { CloudEvent := cloudEvent, Data := [], Topic := "orders", Metadata := [],
    Path := "/orders", PubSub := "kafka" }

/-- A message of the backend `kafka` whose cloud event carries the trace-id
field as a string. -/
def sampleTracedMessage : SubscribedMessage :=
  sampleMessage [("traceid", CEValue.str "00-0af7651916cd43dd8448eb211c80319c-b7ad6b7169203331-01")]

/-- A message of the backend `kafka` whose cloud event carries a
trace-parent field that is a number, not a string. -/
def sampleBadTraceMessage : SubscribedMessage :=
  sampleMessage [("traceparent", CEValue.other "42")]

/-- The receiver `samplePubsub` with an application that cannot be reached:
every delivery ends in the transport error `connection refused`. -/
def sampleUnreachableApp : pubsub :=
  samplePubsub ({ StatusCode := 0, RawData := "" }, some (GoError.errorsNew "connection refused"))
    (Except.error io_EOF) (none, some (GoError.errorsNew "connection refused"))

/-- The receiver `samplePublisher` where building the RPC envelope fails. -/
def sampleNoEnvelope : pubsub :=
  { samplePublisher with
    GRPCEnvelopeFromSubscriptionMessage := fun _ _ =>
      Except.error (GoError.errorsNew "cloud event without data") }

/-- The receiver `samplePublisher` where no application client can be
obtained. -/
def sampleNoAppClient : pubsub :=
  { samplePublisher with GetAppClient := fun _ => some (GoError.errorsNew "no connection") }

/-! ## Observations on results and histories -/

/-- Whether a returned error, nil or not, carries the retriable marker. -/
def carriesRetriable : Option GoError → Bool
  | none => false
  | some e => e.wrapsRetriable

/-- The classes of a delivery result: nil, an error wrapping the retriable
marker, the message-dropped error, any other error. -/
inductive ResultClass where
  | nil
  | retriable
  | messageDropped
  | other
  deriving DecidableEq, Repr

/-- The class of a returned error. -/
def resultClass : Option GoError → ResultClass
  | none => ResultClass.nil
  | some GoError.ErrMessageDropped => ResultClass.messageDropped
  | some e => if e.wrapsRetriable then ResultClass.retriable else ResultClass.other

/-- The number of `span.End()` calls in a history. -/
def spanEnds (w : World) : Nat := w.count Call.spanEnd

/-- The number of `diag.StartInternalCallbackSpan` calls in a history. -/
def spanStarts (w : World) : Nat :=
  w.countP fun c =>
    match c with
    | Call.StartInternalCallbackSpan _ _ => true
    | _ => false

/-- The reply statuses that both delivery variants know. -/
inductive ReplyStatus where
  | SUCCESS
  | RETRY
  | DROP
  deriving DecidableEq, Repr

/-- The status field of the HTTP reply envelope for a reply status. -/
def ReplyStatus.text : ReplyStatus → String
  | ReplyStatus.SUCCESS => Success
  | ReplyStatus.RETRY => Retry
  | ReplyStatus.DROP => Drop

/-- The status enum of the RPC reply for a reply status. -/
def ReplyStatus.enumValue : ReplyStatus → Int
  | ReplyStatus.SUCCESS => TopicEventResponse_SUCCESS
  | ReplyStatus.RETRY => TopicEventResponse_RETRY
  | ReplyStatus.DROP => TopicEventResponse_DROP

/-- Modelled from the spec: the access check `isOperationAllowed` of the
receiver, whose body is outside the sources at hand, as the contract
`IsAllowed(backendName, topic, scopingRule)` of the access control filter:
with an empty or unset rule every topic is allowed, otherwise the topic
must appear verbatim in the list. -/
def IsAllowed (_backendName topic : String) (scopingRule : List String) : Bool :=
  match scopingRule with
  | [] => true
  | t :: rest => (t :: rest).any fun allowed => allowed == topic

/-! ## Helper lemmas -/

theorem ToLower_Success : ToLower Success = "success" := by decide

theorem ToLower_Retry : ToLower Retry = "retry" := by decide

theorem ToLower_Drop : ToLower Drop = "drop" := by decide

theorem ingressEvents_append (w v : World) :
    ingressEvents (w ++ v) = ingressEvents w ++ ingressEvents v := by
  simp [ingressEvents, List.filterMap_append]

/-- Starting the span records no ingress event. -/
theorem ingressEvents_startSpan (p : pubsub) (msg : SubscribedMessage) (w w1 : World)
    (span : Bool) (hs : startSpan p msg w = GoResult.returned (span, w1)) :
    ingressEvents w1 = ingressEvents w := by
  unfold startSpan at hs
  split at hs
  · cases hs; rfl
  · cases hs
  · cases hs; simp [ingressEvents]

theorem ingressEvents_reply (w w1 : World) (span : Bool) (req : InvokeMethodRequest)
    (topic : String) (code : Int) (hw : ingressEvents w1 = ingressEvents w) :
    ingressEvents
      (if span = true then
        w1 ++ [Call.InvokeMethod req] ++
          [Call.AddAttributesToSpan topic, Call.UpdateSpanStatusFromHTTPStatus code,
           Call.spanEnd]
      else w1 ++ [Call.InvokeMethod req]) = ingressEvents w := by
  cases span <;>
    · simp only [Bool.false_eq_true, if_false, if_true, ingressEvents_append, hw]
      generalize ingressEvents w = base
      simp [ingressEvents]

theorem ingressEvents_event (v : World) (a b c d : String) :
    ingressEvents (v ++ [Call.PubsubIngressEvent a b c d]) = ingressEvents v ++ [(a, b, c, d)] := by
  simp [ingressEvents]

theorem ingressEvents_event_log (v : World) (a b c d : String) (l : LogLevel) :
    ingressEvents (v ++ [Call.PubsubIngressEvent a b c d, Call.log l]) =
      ingressEvents v ++ [(a, b, c, d)] := by
  simp [ingressEvents]

theorem ingressEvents_log_event (v : World) (a b c d : String) (l : LogLevel) :
    ingressEvents (v ++ [Call.log l, Call.PubsubIngressEvent a b c d]) =
      ingressEvents v ++ [(a, b, c, d)] := by
  simp [ingressEvents]

/-- The decoded-status branch of HTTP delivery, with the history before the
ingress event abstracted to a history without new ingress events. -/
theorem publishMessageHTTP_decoded (p : pubsub) (msg : SubscribedMessage)
    (w w1 : World) (span : Bool) (resp : InvokeMethodResponse) (status : String)
    (hs : startSpan p msg w = GoResult.returned (span, w1))
    (hi : p.InvokeMethod (newInvokeRequest msg) w1 = (resp, none))
    (h2xx : 200 ≤ resp.StatusCode ∧ resp.StatusCode ≤ 299)
    (hdec : p.Decode resp.RawData = Except.ok status) :
    ∃ w3 : World, ingressEvents w3 = ingressEvents w ∧
      publishMessageHTTP p msg w =
        if status = "" ∨ status = Success then
          (GoResult.returned none,
            w3 ++ [Call.PubsubIngressEvent msg.PubSub "success" "" msg.Topic])
        else if status = Retry then
          (GoResult.returned (some (GoError.Errorf
              ("RETRY status returned from app while processing pub/sub event "
                ++ fmtV (CloudEventGet msg.CloudEvent IDField) ++ ": ")
              GoError.RetriableNil)),
            w3 ++ [Call.PubsubIngressEvent msg.PubSub "retry" "" msg.Topic])
        else if status = Drop then
          (GoResult.returned (some GoError.ErrMessageDropped),
            w3 ++ [Call.PubsubIngressEvent msg.PubSub "drop" "success" msg.Topic,
                   Call.log LogLevel.warn])
        else
          (GoResult.returned (some (GoError.Errorf
              ("unknown status returned from app while processing pub/sub event "
                ++ fmtV (CloudEventGet msg.CloudEvent IDField) ++ ", status: " ++ status
                ++ ", err: ")
              GoError.RetriableNil)),
            w3 ++ [Call.PubsubIngressEvent msg.PubSub "retry" "" msg.Topic]) := by
  have h1 : resp.StatusCode ≥ 200 ∧ resp.StatusCode ≤ 299 := h2xx
  have hw := ingressEvents_startSpan p msg w w1 span hs
  refine ⟨_, ingressEvents_reply w w1 span (newInvokeRequest msg) msg.Topic resp.StatusCode hw,
    ?_⟩
  simp only [publishMessageHTTP, hs, hi, h1, hdec, and_self, if_true, NewRetriable,
    ToLower_Success, ToLower_Retry, ToLower_Drop]

/-- The reply-status branch of RPC delivery, with the history before the
last calls abstracted to a history without new ingress events. -/
theorem publishMessageGRPC_replied (p : pubsub) (msg : SubscribedMessage)
    (w : World) (envelope : TopicEventRequest) (span : Bool)
    (res : Option TopicEventResponse)
    (he : p.GRPCEnvelopeFromSubscriptionMessage msg w = Except.ok (envelope, span))
    (hc : p.GetAppClient (w ++ [Call.GRPCEnvelopeFromSubscriptionMessage msg]) = none)
    (ho : p.OnTopicEvent envelope msg.Metadata
        (w ++ [Call.GRPCEnvelopeFromSubscriptionMessage msg, Call.GetAppClient]) =
      (res, none)) :
    ∃ w4 : World, ingressEvents w4 = ingressEvents w ∧
      publishMessageGRPC p msg w =
        if GetStatus res = TopicEventResponse_SUCCESS then
          (none, w4 ++ [Call.PubsubIngressEvent msg.PubSub "success" "" msg.Topic])
        else if GetStatus res = TopicEventResponse_RETRY then
          (some (GoError.Errorf
              ("RETRY status returned from app while processing pub/sub event "
                ++ fmtV (CloudEventGet msg.CloudEvent IDField) ++ ": ")
              GoError.RetriableNil),
            w4 ++ [Call.PubsubIngressEvent msg.PubSub "retry" "" msg.Topic])
        else if GetStatus res = TopicEventResponse_DROP then
          (some GoError.ErrMessageDropped,
            w4 ++ [Call.log LogLevel.warn,
                   Call.PubsubIngressEvent msg.PubSub "drop" "success" msg.Topic])
        else
          (some (GoError.Errorf
              ("unknown status returned from app while processing pub/sub event "
                ++ fmtV (CloudEventGet msg.CloudEvent IDField) ++ ", status: "
                ++ toString (GetStatus res) ++ ", err: ")
              GoError.RetriableNil),
            w4 ++ [Call.PubsubIngressEvent msg.PubSub "retry" "" msg.Topic]) := by
  have ho2 : p.OnTopicEvent envelope msg.Metadata
      (w ++ [Call.GRPCEnvelopeFromSubscriptionMessage msg] ++ [Call.GetAppClient]) =
        (res, none) := by simpa using ho
  refine ⟨if span = true then
      w ++ [Call.GRPCEnvelopeFromSubscriptionMessage msg] ++ [Call.GetAppClient] ++
        [Call.OnTopicEvent envelope msg.Metadata] ++
        [Call.AddAttributesToSpan envelope.Topic, Call.UpdateSpanStatusFromGRPCError none,
         Call.spanEnd]
    else
      w ++ [Call.GRPCEnvelopeFromSubscriptionMessage msg] ++ [Call.GetAppClient] ++
        [Call.OnTopicEvent envelope msg.Metadata], ?_, ?_⟩
  · cases span <;>
      · simp only [Bool.false_eq_true, if_false, if_true, ingressEvents_append]
        generalize ingressEvents w = base
        simp [ingressEvents]
  · simp only [publishMessageGRPC, he, hc, ho2, NewRetriable,
      ToLower_Success, ToLower_Retry, ToLower_Drop]

/-! ## The publish adapter: lookup, access check, dispatch -/

/-- C1: when the component-registry lookup does not find the backend name,
`Publish` returns `NotFoundError` with exactly that name and `BulkPublish`
returns the empty response with the same error, whatever the topic and the
access check say; no collaborator is called (the call history is unchanged,
so neither the access check, the runner nor the backend ran) and the request
is left as it was. -/
theorem C1_unregistered_backend_not_found (p : pubsub) (name : String)
    (h : p.GetPubSub name = none) (req : PublishRequest) (breq : BulkPublishRequest)
    (hr : req.PubsubName = name) (hb : breq.PubsubName = name) (w : World) :
    Publish p req w = (some (GoError.NotFoundError name), req, w) ∧
    BulkPublish p breq w =
      (GoResult.returned ({ FailedEntries := [] }, some (GoError.NotFoundError name)), w) := by
  subst hr
  constructor
  · simp [Publish, h]
  · simp [BulkPublish, hb, h]

theorem C1_unregistered_backend_not_found_witness :
    Publish samplePublisher (sampleRequest "redis" "orders") [] =
      (some (GoError.NotFoundError "redis"), sampleRequest "redis" "orders", []) ∧
    BulkPublish samplePublisher (sampleBulkRequest "redis" "orders") [] =
      (GoResult.returned ({ FailedEntries := [] }, some (GoError.NotFoundError "redis")), []) :=
  C1_unregistered_backend_not_found samplePublisher "redis" (by simp [samplePublisher, samplePubsub])
    (sampleRequest "redis" "orders") (sampleBulkRequest "redis" "orders") rfl rfl []

/-- C2: when the backend resolves and the access check on (backend name,
topic, ScopedPublishings) is false, `Publish` returns `NotAllowedError` with
the original topic and the app id, and `BulkPublish` returns the empty
response with the same error; the only call made is the one access check,
the backend and the runner are not called, and the request keeps its topic
without namespace prefix even for a namespace-scoped backend. -/
theorem C2_denied_topic_not_allowed (p : pubsub) (name topic : String) (ps : PubsubItem)
    (hfound : p.GetPubSub name = some ps)
    (hdenied : p.isOperationAllowed name topic ps.ScopedPublishings = false)
    (req : PublishRequest) (breq : BulkPublishRequest)
    (hr : req.PubsubName = name) (hrt : req.Topic = topic)
    (hb : breq.PubsubName = name) (hbt : breq.Topic = topic) (w : World) :
    Publish p req w =
      (some (GoError.NotAllowedError topic p.id), req,
        w ++ [Call.isOperationAllowed name topic ps.ScopedPublishings]) ∧
    BulkPublish p breq w =
      (GoResult.returned ({ FailedEntries := [] }, some (GoError.NotAllowedError topic p.id)),
        w ++ [Call.isOperationAllowed name topic ps.ScopedPublishings]) := by
  subst hr hrt
  constructor
  · simp [Publish, hfound, hdenied]
  · simp [BulkPublish, hb, hbt, hfound, hdenied]

theorem C2_denied_topic_not_allowed_witness :
    Publish samplePublisher (sampleRequest "kafka" "payments") [] =
      (some (GoError.NotAllowedError "payments" "app1"), sampleRequest "kafka" "payments",
        [Call.isOperationAllowed "kafka" "payments" ["orders"]]) ∧
    BulkPublish samplePublisher (sampleBulkRequest "kafka" "payments") [] =
      (GoResult.returned
          ({ FailedEntries := [] }, some (GoError.NotAllowedError "payments" "app1")),
        [Call.isOperationAllowed "kafka" "payments" ["orders"]]) :=
  C2_denied_topic_not_allowed samplePublisher "kafka" "payments" sampleItem
    (by simp [samplePublisher, samplePubsub])
    (by simp [samplePublisher, samplePubsub, sampleItem]) (sampleRequest "kafka" "payments") (sampleBulkRequest "kafka" "payments")
    rfl rfl rfl rfl []

/-- C3: when the backend resolves and the topic is allowed, `Publish`
returns exactly what the outbound policy runner keyed by the backend name
returns for the operation "single-message publish of the request on the
backend component", where the request sent has the topic
`namespace ++ topic` for a namespace-scoped backend, the original topic
otherwise, and all other fields unchanged.  With the identity runner the
component is called exactly once and `Publish` returns the component's
result itself (nil or its error), so no retry and no rewrapping is added. -/
theorem C3_publish_runs_component_through_runner (p : pubsub) (ps : PubsubItem)
    (req : PublishRequest) (w : World)
    (hfound : p.GetPubSub req.PubsubName = some ps)
    (hallowed : p.isOperationAllowed req.PubsubName req.Topic ps.ScopedPublishings = true) :
    let sent : PublishRequest :=
      { Data := req.Data, PubsubName := req.PubsubName,
        Topic := if ps.NamespaceScoped then p.namespaceName ++ req.Topic else req.Topic,
        Metadata := req.Metadata, ContentType := req.ContentType }
    let w1 : World :=
      w ++ [Call.isOperationAllowed req.PubsubName req.Topic ps.ScopedPublishings,
            Call.policyRunner req.PubsubName]
    let op : Operation :=
      fun wi => (ps.Component.Publish sent wi, wi ++ [Call.componentPublish sent])
    Publish p req w =
        ((p.NewRunner req.PubsubName op w1).1, sent, (p.NewRunner req.PubsubName op w1).2) ∧
      (p.NewRunner req.PubsubName = Runner.identity →
        Publish p req w =
          (ps.Component.Publish sent w1, sent, w1 ++ [Call.componentPublish sent])) := by
  intro sent w1 op
  have key : Publish p req w =
      ((p.NewRunner req.PubsubName op w1).1, sent, (p.NewRunner req.PubsubName op w1).2) := by
    cases hns : ps.NamespaceScoped <;>
      simp [Publish, hfound, hallowed, hns, sent, w1, op]
  refine ⟨key, ?_⟩
  intro hid
  rw [key, hid]
  rfl

theorem C3_publish_runs_component_through_runner_witness :
    Publish samplePublisher (sampleRequest "kafka" "orders") [] =
      (none, sampleRequest "kafka" "ns1orders",
        [Call.isOperationAllowed "kafka" "orders" ["orders"], Call.policyRunner "kafka",
         Call.componentPublish (sampleRequest "kafka" "ns1orders")]) :=
  (C3_publish_runs_component_through_runner samplePublisher sampleItem
    (sampleRequest "kafka" "orders") []
    (by simp [samplePublisher, samplePubsub, sampleRequest])
    (by simp [samplePublisher, samplePubsub, sampleItem, sampleRequest])).2 rfl

/-- C4: in HTTP delivery, for a reply with status code in 200..299 whose
body decodes to a status envelope, the result is nil when the status field
is empty or exactly `SUCCESS`, and is a non-nil error wrapping the retriable
marker when the status field is `RETRY` or any string other than the empty
string, `SUCCESS` and `DROP` (the comparison is exact, so `success` or
`Retry` are unknown values). -/
theorem C4_http_2xx_status_success_or_retry (p : pubsub) (msg : SubscribedMessage)
    (w w1 : World) (span : Bool) (resp : InvokeMethodResponse) (status : String)
    (hs : startSpan p msg w = GoResult.returned (span, w1))
    (hi : p.InvokeMethod (newInvokeRequest msg) w1 = (resp, none))
    (h2xx : 200 ≤ resp.StatusCode ∧ resp.StatusCode ≤ 299)
    (hdec : p.Decode resp.RawData = Except.ok status) :
    ((status = "" ∨ status = "SUCCESS") →
      (publishMessageHTTP p msg w).1 = GoResult.returned none) ∧
    ((status = "RETRY" ∨ (status ≠ "" ∧ status ≠ "SUCCESS" ∧ status ≠ "DROP")) →
      ∃ e, (publishMessageHTTP p msg w).1 = GoResult.returned (some e) ∧
        e.wrapsRetriable = true) := by
  have h1 : resp.StatusCode ≥ 200 ∧ resp.StatusCode ≤ 299 := h2xx
  constructor
  · intro hst
    have hst2 : status = "" ∨ status = Success := hst
    simp [publishMessageHTTP, hs, hi, h1, hdec, hst2]
  · intro hst
    have hne : ¬ (status = "" ∨ status = Success) := by
      rcases hst with h | ⟨ha, hb, _⟩
      · subst h; decide
      · intro hc
        rcases hc with hc | hc
        · exact ha hc
        · exact hb hc
    have hnd : status ≠ Drop := by
      rcases hst with h | ⟨_, _, hc⟩
      · subst h; decide
      · exact hc
    by_cases hr : status = Retry
    · refine ⟨GoError.Errorf
        ("RETRY status returned from app while processing pub/sub event "
          ++ fmtV (CloudEventGet msg.CloudEvent IDField) ++ ": ") (NewRetriable none), ?_, ?_⟩
      · simp only [publishMessageHTTP, hs, hi, h1, hdec]
        simp [if_neg hne, if_pos hr]
      · simp [NewRetriable, GoError.wrapsRetriable]
    · refine ⟨GoError.Errorf
        ("unknown status returned from app while processing pub/sub event "
          ++ fmtV (CloudEventGet msg.CloudEvent IDField) ++ ", status: " ++ status
          ++ ", err: ") (NewRetriable none), ?_, ?_⟩
      · simp only [publishMessageHTTP, hs, hi, h1, hdec]
        simp [if_neg hne, if_neg hr, if_neg hnd]
      · simp [NewRetriable, GoError.wrapsRetriable]

theorem C4_http_2xx_status_success_or_retry_witness :
    ∃ e, (publishMessageHTTP
            (samplePubsub ({ StatusCode := 200, RawData := "\x7b\"status\":\"success\"\x7d" }, none)
              (Except.ok "success") (none, none))
            (sampleMessage []) []).1 = GoResult.returned (some e) ∧
      e.wrapsRetriable = true :=
  (C4_http_2xx_status_success_or_retry
    (samplePubsub ({ StatusCode := 200, RawData := "\x7b\"status\":\"success\"\x7d" }, none)
      (Except.ok "success") (none, none))
    (sampleMessage []) [] [] false
    { StatusCode := 200, RawData := "\x7b\"status\":\"success\"\x7d" } "success"
    rfl rfl (by decide) rfl).2 (Or.inr (by decide))

/-- C5 as stated fails: a 2xx reply whose decoded status is `DROP`, and an
RPC reply whose status enum is DROP, make the delivery return the
message-dropped error, which is not nil. -/
theorem C5_drop_reply_is_an_error :
    (publishMessageHTTP
        (samplePubsub ({ StatusCode := 200, RawData := "\x7b\"status\":\"DROP\"\x7d" }, none)
          (Except.ok "DROP") (none, none))
        (sampleMessage []) []).1 = GoResult.returned (some GoError.ErrMessageDropped) ∧
    (publishMessageHTTP
        (samplePubsub ({ StatusCode := 200, RawData := "\x7b\"status\":\"DROP\"\x7d" }, none)
          (Except.ok "DROP") (none, none))
        (sampleMessage []) []).1 ≠ GoResult.returned none ∧
    (publishMessageGRPC
        (samplePubsub ({ StatusCode := 200, RawData := "" }, none) (Except.error io_EOF)
          (some { Status := TopicEventResponse_DROP }, none))
        (sampleMessage []) []).1 = some GoError.ErrMessageDropped ∧
    (publishMessageGRPC
        (samplePubsub ({ StatusCode := 200, RawData := "" }, none) (Except.error io_EOF)
          (some { Status := TopicEventResponse_DROP }, none))
        (sampleMessage []) []).1 ≠ none := by
  decide

/-- C5 (amended): an explicit DROP reply surfaces as the dedicated
message-dropped error, which is non-nil and does not carry the retriable
marker, in both variants: `publishMessageHTTP` returns it for every 2xx
reply whose decoded status is `DROP`, `publishMessageGRPC` for every
error-free reply whose status enum is DROP; in both cases exactly one
ingress event is recorded, with outcome tag `drop` and extra tag
`success`. -/
theorem C5_drop_reply_returns_message_dropped (p : pubsub) (msg : SubscribedMessage)
    (w : World) :
    (∀ (w1 : World) (span : Bool) (resp : InvokeMethodResponse),
      startSpan p msg w = GoResult.returned (span, w1) →
      p.InvokeMethod (newInvokeRequest msg) w1 = (resp, none) →
      (200 ≤ resp.StatusCode ∧ resp.StatusCode ≤ 299) →
      p.Decode resp.RawData = Except.ok "DROP" →
        (publishMessageHTTP p msg w).1 = GoResult.returned (some GoError.ErrMessageDropped) ∧
        ingressEvents (publishMessageHTTP p msg w).2 =
          ingressEvents w ++ [(msg.PubSub, "drop", "success", msg.Topic)]) ∧
    (∀ (envelope : TopicEventRequest) (span : Bool) (res : Option TopicEventResponse),
      p.GRPCEnvelopeFromSubscriptionMessage msg w = Except.ok (envelope, span) →
      p.GetAppClient (w ++ [Call.GRPCEnvelopeFromSubscriptionMessage msg]) = none →
      p.OnTopicEvent envelope msg.Metadata
          (w ++ [Call.GRPCEnvelopeFromSubscriptionMessage msg, Call.GetAppClient]) =
        (res, none) →
      GetStatus res = TopicEventResponse_DROP →
        (publishMessageGRPC p msg w).1 = some GoError.ErrMessageDropped ∧
        ingressEvents (publishMessageGRPC p msg w).2 =
          ingressEvents w ++ [(msg.PubSub, "drop", "success", msg.Topic)]) ∧
    GoError.ErrMessageDropped.wrapsRetriable = false := by
  refine ⟨?_, ?_, rfl⟩
  · intro w1 span resp hs hi h2xx hdec
    have h1 : resp.StatusCode ≥ 200 ∧ resp.StatusCode ≤ 299 := h2xx
    have hw := ingressEvents_startSpan p msg w w1 span hs
    have hne : ¬ ("DROP" = "" ∨ "DROP" = Success) := by decide
    have hnr : ¬ ("DROP" = Retry) := by decide
    have hd : "DROP" = Drop := rfl
    simp only [publishMessageHTTP, hs, hi, h1, hdec]
    simp only [and_self, if_true, if_neg hne, if_neg hnr, if_pos hd, true_and]
    cases span <;>
      · simp only [Bool.false_eq_true, if_false, if_true, ingressEvents_append, hw]
        generalize ingressEvents w = base
        simp [ingressEvents, ToLower_Drop, ToLower_Success]
  · intro envelope span res he hc ho hst
    have hns : ¬ (GetStatus res = TopicEventResponse_SUCCESS) := by rw [hst]; decide
    have hnr : ¬ (GetStatus res = TopicEventResponse_RETRY) := by rw [hst]; decide
    have ho2 : p.OnTopicEvent envelope msg.Metadata
        (w ++ [Call.GRPCEnvelopeFromSubscriptionMessage msg] ++ [Call.GetAppClient]) =
          (res, none) := by simpa using ho
    simp only [publishMessageGRPC, he, hc, ho2]
    simp only [if_neg hns, if_neg hnr, if_pos hst, true_and]
    cases span <;>
      simp [ingressEvents_append, ingressEvents, ToLower_Drop, ToLower_Success]

theorem C5_drop_reply_returns_message_dropped_witness :
    (publishMessageHTTP
        (samplePubsub ({ StatusCode := 204, RawData := "\x7b\"status\":\"DROP\"\x7d" }, none)
          (Except.ok "DROP") (none, none))
        (sampleMessage [("traceid", CEValue.str "t1")]) []).1 =
      GoResult.returned (some GoError.ErrMessageDropped) ∧
    ingressEvents (publishMessageHTTP
        (samplePubsub ({ StatusCode := 204, RawData := "\x7b\"status\":\"DROP\"\x7d" }, none)
          (Except.ok "DROP") (none, none))
        (sampleMessage [("traceid", CEValue.str "t1")]) []).2 =
      [("kafka", "drop", "success", "orders")] :=
  (C5_drop_reply_returns_message_dropped
    (samplePubsub ({ StatusCode := 204, RawData := "\x7b\"status\":\"DROP\"\x7d" }, none)
      (Except.ok "DROP") (none, none))
    (sampleMessage [("traceid", CEValue.str "t1")]) []).1
    [Call.StartInternalCallbackSpan "pubsub/orders" "t1"] true
    { StatusCode := 204, RawData := "\x7b\"status\":\"DROP\"\x7d" }
    (by decide) rfl (by decide) rfl

/-- C6: in HTTP delivery, a reply with status code in 200..299 whose body
fails to decode as a status envelope, whether with `io.EOF` (empty body) or
with any other decoding error, gives nil, and exactly one ingress event is
recorded, with outcome tag `success` and empty extra tag. -/
theorem C6_http_2xx_undecodable_body_is_success (p : pubsub) (msg : SubscribedMessage)
    (w w1 : World) (span : Bool) (resp : InvokeMethodResponse) (derr : GoError)
    (hs : startSpan p msg w = GoResult.returned (span, w1))
    (hi : p.InvokeMethod (newInvokeRequest msg) w1 = (resp, none))
    (h2xx : 200 ≤ resp.StatusCode ∧ resp.StatusCode ≤ 299)
    (hdec : p.Decode resp.RawData = Except.error derr) :
    (publishMessageHTTP p msg w).1 = GoResult.returned none ∧
    ingressEvents (publishMessageHTTP p msg w).2 =
      ingressEvents w ++ [(msg.PubSub, "success", "", msg.Topic)] := by
  have h1 : resp.StatusCode ≥ 200 ∧ resp.StatusCode ≤ 299 := h2xx
  have hw := ingressEvents_startSpan p msg w w1 span hs
  simp only [publishMessageHTTP, hs, hi, h1, hdec]
  simp only [and_self, if_true, ite_self, true_and]
  cases span <;>
    · simp only [Bool.false_eq_true, if_false, if_true, ingressEvents_append, hw]
      generalize ingressEvents w = base
      simp [ingressEvents, ToLower_Success]

theorem C6_http_2xx_undecodable_body_is_success_witness :
    (publishMessageHTTP
        (samplePubsub ({ StatusCode := 200, RawData := "not json" }, none)
          (Except.error (GoError.errorsNew "invalid character")) (none, none))
        (sampleMessage []) []).1 = GoResult.returned none ∧
    ingressEvents (publishMessageHTTP
        (samplePubsub ({ StatusCode := 200, RawData := "not json" }, none)
          (Except.error (GoError.errorsNew "invalid character")) (none, none))
        (sampleMessage []) []).2 = [("kafka", "success", "", "orders")] :=
  C6_http_2xx_undecodable_body_is_success
    (samplePubsub ({ StatusCode := 200, RawData := "not json" }, none)
      (Except.error (GoError.errorsNew "invalid character")) (none, none))
    (sampleMessage []) [] [] false { StatusCode := 200, RawData := "not json" }
    (GoError.errorsNew "invalid character") rfl rfl (by decide) rfl

/-- C7: the non-retriable "route not handled" signal is consumed without
error in both variants: `publishMessageHTTP` returns nil for every reply
with status code 404, whatever its body, and `publishMessageGRPC` returns
nil for every transport error whose gRPC status code is Unimplemented; in
both cases exactly one ingress event is recorded, with outcome tag `drop`
and empty extra tag (a nil result carries no retriable marker). -/
theorem C7_route_not_handled_is_dropped (p : pubsub) (msg : SubscribedMessage) (w : World) :
    (∀ (w1 : World) (span : Bool) (resp : InvokeMethodResponse),
      startSpan p msg w = GoResult.returned (span, w1) →
      p.InvokeMethod (newInvokeRequest msg) w1 = (resp, none) →
      resp.StatusCode = 404 →
        (publishMessageHTTP p msg w).1 = GoResult.returned none ∧
        ingressEvents (publishMessageHTTP p msg w).2 =
          ingressEvents w ++ [(msg.PubSub, "drop", "", msg.Topic)]) ∧
    (∀ (envelope : TopicEventRequest) (span : Bool) (res : Option TopicEventResponse)
        (e : GoError),
      p.GRPCEnvelopeFromSubscriptionMessage msg w = Except.ok (envelope, span) →
      p.GetAppClient (w ++ [Call.GRPCEnvelopeFromSubscriptionMessage msg]) = none →
      p.OnTopicEvent envelope msg.Metadata
          (w ++ [Call.GRPCEnvelopeFromSubscriptionMessage msg, Call.GetAppClient]) =
        (res, some e) →
      p.FromError e = (Unimplemented, true) →
        (publishMessageGRPC p msg w).1 = none ∧
        ingressEvents (publishMessageGRPC p msg w).2 =
          ingressEvents w ++ [(msg.PubSub, "drop", "", msg.Topic)]) := by
  refine ⟨?_, ?_⟩
  · intro w1 span resp hs hi hcode
    have h1 : ¬ (resp.StatusCode ≥ 200 ∧ resp.StatusCode ≤ 299) := by
      rw [hcode]; decide
    have h2 : resp.StatusCode = StatusNotFound := hcode
    have hw := ingressEvents_startSpan p msg w w1 span hs
    simp only [publishMessageHTTP, hs, hi]
    simp only [if_neg h1, if_pos h2, true_and]
    cases span <;>
      · simp only [Bool.false_eq_true, if_false, if_true, ingressEvents_append, hw]
        generalize ingressEvents w = base
        simp [ingressEvents, ToLower_Drop]
  · intro envelope span res e he hc ho hcode
    have ho2 : p.OnTopicEvent envelope msg.Metadata
        (w ++ [Call.GRPCEnvelopeFromSubscriptionMessage msg] ++ [Call.GetAppClient]) =
          (res, some e) := by simpa using ho
    simp only [publishMessageGRPC, he, hc, ho2, hcode]
    simp only [and_self, if_true, true_and]
    cases span <;>
      · simp only [Bool.false_eq_true, if_false, if_true, ingressEvents_append]
        generalize ingressEvents w = base
        simp [ingressEvents, ToLower_Drop]

theorem C7_route_not_handled_is_dropped_witness :
    ((publishMessageHTTP
        (samplePubsub ({ StatusCode := 404, RawData := "no such route" }, none)
          (Except.ok "RETRY") (none, none))
        (sampleMessage []) []).1 = GoResult.returned none ∧
      ingressEvents (publishMessageHTTP
        (samplePubsub ({ StatusCode := 404, RawData := "no such route" }, none)
          (Except.ok "RETRY") (none, none))
        (sampleMessage []) []).2 = [("kafka", "drop", "", "orders")]) ∧
    ((publishMessageGRPC
        (samplePubsub ({ StatusCode := 200, RawData := "" }, none) (Except.error io_EOF)
          (none, some (GoError.statusError 12 "unimplemented")))
        (sampleMessage []) []).1 = none ∧
      ingressEvents (publishMessageGRPC
        (samplePubsub ({ StatusCode := 200, RawData := "" }, none) (Except.error io_EOF)
          (none, some (GoError.statusError 12 "unimplemented")))
        (sampleMessage []) []).2 = [("kafka", "drop", "", "orders")]) :=
  ⟨(C7_route_not_handled_is_dropped
      (samplePubsub ({ StatusCode := 404, RawData := "no such route" }, none)
        (Except.ok "RETRY") (none, none))
      (sampleMessage []) []).1 [] false { StatusCode := 404, RawData := "no such route" }
      rfl rfl rfl,
    (C7_route_not_handled_is_dropped
      (samplePubsub ({ StatusCode := 200, RawData := "" }, none) (Except.error io_EOF)
        (none, some (GoError.statusError 12 "unimplemented")))
      (sampleMessage []) []).2
      { Id := "e1", Topic := "orders", PubsubName := "kafka", Data := [], Path := "/orders" }
      true none (GoError.statusError 12 "unimplemented") rfl rfl rfl rfl⟩

/-- C8: in HTTP delivery, for every reply whose status code is outside
200..299 and is not 404, the result is the retriable marker wrapping an
error whose message contains the response body and the status code, and
exactly one ingress event is recorded, with outcome tag `retry`. -/
theorem C8_http_other_status_is_retriable (p : pubsub) (msg : SubscribedMessage)
    (w w1 : World) (span : Bool) (resp : InvokeMethodResponse)
    (hs : startSpan p msg w = GoResult.returned (span, w1))
    (hi : p.InvokeMethod (newInvokeRequest msg) w1 = (resp, none))
    (hout : ¬ (200 ≤ resp.StatusCode ∧ resp.StatusCode ≤ 299))
    (hnot404 : resp.StatusCode ≠ 404) :
    (∃ errMsg : String,
      (publishMessageHTTP p msg w).1 =
        GoResult.returned (some (GoError.Retriable (GoError.errorsNew errMsg))) ∧
      resp.RawData.data <:+: errMsg.data ∧
      (toString resp.StatusCode).data <:+: errMsg.data) ∧
    ingressEvents (publishMessageHTTP p msg w).2 =
      ingressEvents w ++ [(msg.PubSub, "retry", "", msg.Topic)] := by
  have h1 : ¬ (resp.StatusCode ≥ 200 ∧ resp.StatusCode ≤ 299) := hout
  have h2 : ¬ (resp.StatusCode = StatusNotFound) := hnot404
  have hw := ingressEvents_startSpan p msg w w1 span hs
  refine ⟨⟨"retriable error returned from app while processing pub/sub event "
      ++ fmtV (CloudEventGet msg.CloudEvent IDField) ++ ", topic: "
      ++ fmtV (CloudEventGet msg.CloudEvent TopicField) ++ ", body: " ++ resp.RawData
      ++ ". status code returned: " ++ toString resp.StatusCode, ?_, ?_, ?_⟩, ?_⟩
  · simp only [publishMessageHTTP, hs, hi]
    simp only [if_neg h1, if_neg h2, NewRetriable]
  · simp only [String.data_append]
    exact (List.infix_append _ _ _).trans (List.prefix_append _ _).isInfix
  · simp only [String.data_append]
    exact (List.suffix_append _ _).isInfix
  · simp only [publishMessageHTTP, hs, hi]
    simp only [if_neg h1, if_neg h2]
    cases span <;>
      · simp only [Bool.false_eq_true, if_false, if_true, ingressEvents_append, hw]
        generalize ingressEvents w = base
        simp [ingressEvents, ToLower_Retry]

theorem C8_http_other_status_is_retriable_witness :
    (∃ errMsg : String,
      (publishMessageHTTP
          (samplePubsub ({ StatusCode := 500, RawData := "boom" }, none)
            (Except.ok "SUCCESS") (none, none))
          (sampleMessage []) []).1 =
        GoResult.returned (some (GoError.Retriable (GoError.errorsNew errMsg))) ∧
      "boom".data <:+: errMsg.data ∧
      (toString (500 : Int)).data <:+: errMsg.data) ∧
    ingressEvents (publishMessageHTTP
        (samplePubsub ({ StatusCode := 500, RawData := "boom" }, none)
          (Except.ok "SUCCESS") (none, none))
        (sampleMessage []) []).2 = [("kafka", "retry", "", "orders")] :=
  C8_http_other_status_is_retriable
    (samplePubsub ({ StatusCode := 500, RawData := "boom" }, none)
      (Except.ok "SUCCESS") (none, none))
    (sampleMessage []) [] [] false { StatusCode := 500, RawData := "boom" }
    rfl rfl (by decide) (by decide)

/-- C9: a transport-level failure yields Retry in both variants.  When the
app channel's `InvokeMethod` returns an error, `publishMessageHTTP` returns
an error that wraps the retriable marker, which wraps that transport error;
when `OnTopicEvent` returns an error that has no gRPC status or whose code
is not Unimplemented, `publishMessageGRPC` does the same.  In both cases
exactly one ingress event is recorded, with outcome tag `retry`, and what
is returned and recorded is fixed by the error alone: the reply value that
came with the error does not occur in it. -/
theorem C9_transport_error_is_retriable (p : pubsub) (msg : SubscribedMessage) (w : World) :
    (∀ (w1 : World) (span : Bool) (resp : InvokeMethodResponse) (e : GoError),
      startSpan p msg w = GoResult.returned (span, w1) →
      p.InvokeMethod (newInvokeRequest msg) w1 = (resp, some e) →
        ∃ text : String,
          publishMessageHTTP p msg w =
            (GoResult.returned (some (GoError.Errorf text (GoError.Retriable e))),
              w1 ++ [Call.InvokeMethod (newInvokeRequest msg),
                     Call.PubsubIngressEvent msg.PubSub "retry" "" msg.Topic]) ∧
          ingressEvents (publishMessageHTTP p msg w).2 =
            ingressEvents w ++ [(msg.PubSub, "retry", "", msg.Topic)]) ∧
    (∀ (envelope : TopicEventRequest) (span : Bool) (res : Option TopicEventResponse)
        (e : GoError),
      p.GRPCEnvelopeFromSubscriptionMessage msg w = Except.ok (envelope, span) →
      p.GetAppClient (w ++ [Call.GRPCEnvelopeFromSubscriptionMessage msg]) = none →
      p.OnTopicEvent envelope msg.Metadata
          (w ++ [Call.GRPCEnvelopeFromSubscriptionMessage msg, Call.GetAppClient]) =
        (res, some e) →
      ¬ ((p.FromError e).2 = true ∧ (p.FromError e).1 = Unimplemented) →
        ∃ text : String,
          publishMessageGRPC p msg w =
            (some (GoError.Errorf text (GoError.Retriable e)),
              w ++ [Call.GRPCEnvelopeFromSubscriptionMessage msg, Call.GetAppClient,
                    Call.OnTopicEvent envelope msg.Metadata]
                ++ (if span then
                      [Call.AddAttributesToSpan envelope.Topic,
                       Call.UpdateSpanStatusFromGRPCError (some e), Call.spanEnd]
                    else [])
                ++ [Call.log LogLevel.debug,
                    Call.PubsubIngressEvent msg.PubSub "retry" "" msg.Topic]) ∧
          ingressEvents (publishMessageGRPC p msg w).2 =
            ingressEvents w ++ [(msg.PubSub, "retry", "", msg.Topic)]) ∧
    (∀ (text : String) (e : GoError),
      (GoError.Errorf text (GoError.Retriable e)).wrapsRetriable = true ∧
      (GoError.Errorf text (GoError.Retriable e)).Unwrap = some (GoError.Retriable e) ∧
      (GoError.Retriable e).Unwrap = some e) := by
  refine ⟨?_, ?_, fun _ _ => ⟨rfl, rfl, rfl⟩⟩
  · intro w1 span resp e hs hi
    have hw := ingressEvents_startSpan p msg w w1 span hs
    refine ⟨"error returned from app channel while sending pub/sub event to app: ", ?_, ?_⟩
    · simp [publishMessageHTTP, hs, hi, NewRetriable, ToLower_Retry]
    · simp only [publishMessageHTTP, hs, hi, ingressEvents_append, hw]
      generalize ingressEvents w = base
      simp [ingressEvents, ToLower_Retry]
  · intro envelope span res e he hc ho hcode
    have ho2 : p.OnTopicEvent envelope msg.Metadata
        (w ++ [Call.GRPCEnvelopeFromSubscriptionMessage msg] ++ [Call.GetAppClient]) =
          (res, some e) := by simpa using ho
    rcases hfe : p.FromError e with ⟨code, has⟩
    rw [hfe] at hcode
    have hcode2 : ¬ (has = true ∧ code = Unimplemented) := hcode
    refine ⟨"error returned from app while processing pub/sub event "
      ++ fmtV (CloudEventGet msg.CloudEvent IDField) ++ ": ", ?_, ?_⟩
    · simp only [publishMessageGRPC, he, hc, ho2, hfe]
      simp only [if_neg hcode2, NewRetriable, ToLower_Retry]
      cases span <;> simp
    · simp only [publishMessageGRPC, he, hc, ho2, hfe]
      simp only [if_neg hcode2]
      cases span <;>
        · simp only [Bool.false_eq_true, if_false, if_true, ingressEvents_append]
          generalize ingressEvents w = base
          simp [ingressEvents, ToLower_Retry]

theorem C9_transport_error_is_retriable_witness :
    (∃ text : String,
      publishMessageHTTP
          (samplePubsub ({ StatusCode := 200, RawData := "" }, some (GoError.errorsNew "timeout"))
            (Except.ok "SUCCESS") (none, none))
          (sampleMessage []) [] =
        (GoResult.returned
            (some (GoError.Errorf text (GoError.Retriable (GoError.errorsNew "timeout")))),
          [] ++ [Call.InvokeMethod (newInvokeRequest (sampleMessage [])),
                 Call.PubsubIngressEvent "kafka" "retry" "" "orders"]) ∧
      ingressEvents (publishMessageHTTP
          (samplePubsub ({ StatusCode := 200, RawData := "" }, some (GoError.errorsNew "timeout"))
            (Except.ok "SUCCESS") (none, none))
          (sampleMessage []) []).2 = [] ++ [("kafka", "retry", "", "orders")]) ∧
    (∃ text : String,
      (publishMessageGRPC
          (samplePubsub ({ StatusCode := 200, RawData := "" }, none) (Except.error io_EOF)
            (none, some (GoError.statusError 14 "unavailable")))
          (sampleMessage []) []).1 =
        some (GoError.Errorf text (GoError.Retriable (GoError.statusError 14 "unavailable")))) :=
  ⟨(C9_transport_error_is_retriable
      (samplePubsub ({ StatusCode := 200, RawData := "" }, some (GoError.errorsNew "timeout"))
        (Except.ok "SUCCESS") (none, none))
      (sampleMessage []) []).1 [] false { StatusCode := 200, RawData := "" }
      (GoError.errorsNew "timeout") rfl rfl,
    ((C9_transport_error_is_retriable
      (samplePubsub ({ StatusCode := 200, RawData := "" }, none) (Except.error io_EOF)
        (none, some (GoError.statusError 14 "unavailable")))
      (sampleMessage []) []).2.1
      { Id := "e1", Topic := "orders", PubsubName := "kafka", Data := [], Path := "/orders" }
      true none (GoError.statusError 14 "unavailable") rfl rfl rfl (by decide)).imp
      fun _ h => congrArg Prod.fst h.1⟩

/-- C10: in RPC delivery, for a reply received without transport error: if
the status enum is SUCCESS, which is the zero value and so also what an
unset status and a nil response read as, the result is nil and one ingress
event with outcome tag `success` is recorded; if the status enum is RETRY,
or any value other than SUCCESS, RETRY and DROP, the result is a non-nil
error wrapping the retriable marker and one ingress event with outcome tag
`retry` is recorded. -/
theorem C10_grpc_reply_status_success_or_retry (p : pubsub) (msg : SubscribedMessage)
    (w : World) (envelope : TopicEventRequest) (span : Bool)
    (res : Option TopicEventResponse)
    (he : p.GRPCEnvelopeFromSubscriptionMessage msg w = Except.ok (envelope, span))
    (hc : p.GetAppClient (w ++ [Call.GRPCEnvelopeFromSubscriptionMessage msg]) = none)
    (ho : p.OnTopicEvent envelope msg.Metadata
        (w ++ [Call.GRPCEnvelopeFromSubscriptionMessage msg, Call.GetAppClient]) =
      (res, none)) :
    (GetStatus res = TopicEventResponse_SUCCESS →
      (publishMessageGRPC p msg w).1 = none ∧
      ingressEvents (publishMessageGRPC p msg w).2 =
        ingressEvents w ++ [(msg.PubSub, "success", "", msg.Topic)]) ∧
    ((GetStatus res = TopicEventResponse_RETRY ∨
        (GetStatus res ≠ TopicEventResponse_SUCCESS ∧
          GetStatus res ≠ TopicEventResponse_RETRY ∧
          GetStatus res ≠ TopicEventResponse_DROP)) →
      (∃ e, (publishMessageGRPC p msg w).1 = some e ∧ e.wrapsRetriable = true) ∧
      ingressEvents (publishMessageGRPC p msg w).2 =
        ingressEvents w ++ [(msg.PubSub, "retry", "", msg.Topic)]) ∧
    TopicEventResponse_SUCCESS = 0 ∧
    GetStatus none = TopicEventResponse_SUCCESS ∧
    GetStatus (some { Status := 0 }) = TopicEventResponse_SUCCESS := by
  have ho2 : p.OnTopicEvent envelope msg.Metadata
      (w ++ [Call.GRPCEnvelopeFromSubscriptionMessage msg] ++ [Call.GetAppClient]) =
        (res, none) := by simpa using ho
  refine ⟨?_, ?_, rfl, rfl, rfl⟩
  · intro hst
    simp only [publishMessageGRPC, he, hc, ho2]
    simp only [if_pos hst, true_and]
    cases span <;>
      · simp only [Bool.false_eq_true, if_false, if_true, ingressEvents_append]
        generalize ingressEvents w = base
        simp [ingressEvents, ToLower_Success]
  · intro hst
    have hns : ¬ (GetStatus res = TopicEventResponse_SUCCESS) := by
      rcases hst with h | ⟨h, _, _⟩
      · rw [h]; decide
      · exact h
    have hnd : ¬ (GetStatus res = TopicEventResponse_DROP) := by
      rcases hst with h | ⟨_, _, h⟩
      · rw [h]; decide
      · exact h
    by_cases hr : GetStatus res = TopicEventResponse_RETRY
    · refine ⟨⟨GoError.Errorf
          ("RETRY status returned from app while processing pub/sub event "
            ++ fmtV (CloudEventGet msg.CloudEvent IDField) ++ ": ") (NewRetriable none),
          ?_, rfl⟩, ?_⟩
      · simp only [publishMessageGRPC, he, hc, ho2]
        simp only [if_neg hns, if_pos hr]
      · simp only [publishMessageGRPC, he, hc, ho2]
        simp only [if_neg hns, if_pos hr]
        cases span <;>
          · simp only [Bool.false_eq_true, if_false, if_true, ingressEvents_append]
            generalize ingressEvents w = base
            simp [ingressEvents, ToLower_Retry]
    · refine ⟨⟨GoError.Errorf
          ("unknown status returned from app while processing pub/sub event "
            ++ fmtV (CloudEventGet msg.CloudEvent IDField) ++ ", status: "
            ++ toString (GetStatus res) ++ ", err: ") (NewRetriable none),
          ?_, rfl⟩, ?_⟩
      · simp only [publishMessageGRPC, he, hc, ho2]
        simp only [if_neg hns, if_neg hr, if_neg hnd]
      · simp only [publishMessageGRPC, he, hc, ho2]
        simp only [if_neg hns, if_neg hr, if_neg hnd]
        cases span <;>
          · simp only [Bool.false_eq_true, if_false, if_true, ingressEvents_append]
            generalize ingressEvents w = base
            simp [ingressEvents, ToLower_Retry]

theorem C10_grpc_reply_status_success_or_retry_witness :
    (∃ e, (publishMessageGRPC
            (samplePubsub ({ StatusCode := 200, RawData := "" }, none) (Except.error io_EOF)
              (some { Status := 7 }, none))
            (sampleMessage []) []).1 = some e ∧ e.wrapsRetriable = true) ∧
    ingressEvents (publishMessageGRPC
        (samplePubsub ({ StatusCode := 200, RawData := "" }, none) (Except.error io_EOF)
          (some { Status := 7 }, none))
        (sampleMessage []) []).2 = [] ++ [("kafka", "retry", "", "orders")] :=
  (C10_grpc_reply_status_success_or_retry
    (samplePubsub ({ StatusCode := 200, RawData := "" }, none) (Except.error io_EOF)
      (some { Status := 7 }, none))
    (sampleMessage []) []
    { Id := "e1", Topic := "orders", PubsubName := "kafka", Data := [], Path := "/orders" }
    true (some { Status := 7 }) rfl rfl rfl).2.1 (Or.inr (by decide))

/-! ## Tracing and panics in HTTP delivery -/

/-- Without a trace-parent and a trace-id field no span is started: the
span stage returns a nil span and records nothing. -/
theorem startSpan_without_trace_field (p : pubsub) (msg : SubscribedMessage) (w : World)
    (h : iTraceID msg.CloudEvent = none) :
    startSpan p msg w = GoResult.returned (false, w) := by
  simp [startSpan, h]

/-- On every path where the application replied, a non-nil span is ended
exactly once. -/
theorem publishMessageHTTP_span_ended_on_reply (p : pubsub) (msg : SubscribedMessage)
    (w w1 : World) (span : Bool) (resp : InvokeMethodResponse)
    (hs : startSpan p msg w = GoResult.returned (span, w1))
    (hi : p.InvokeMethod (newInvokeRequest msg) w1 = (resp, none)) :
    spanEnds (publishMessageHTTP p msg w).2 = spanEnds w1 + (if span then 1 else 0) := by
  simp only [publishMessageHTTP, hs, hi]
  cases span <;>
    · simp only [Bool.false_eq_true, if_false, if_true]
      repeat' split
      all_goals simp [spanEnds, List.count_append, List.count_cons]

/-- With a trace field that is absent or a string, HTTP delivery returns. -/
theorem publishMessageHTTP_returns (p : pubsub) (msg : SubscribedMessage) (w : World)
    (h : ∀ shown, iTraceID msg.CloudEvent ≠ some (CEValue.other shown)) :
    ∃ err, (publishMessageHTTP p msg w).1 = GoResult.returned err := by
  have hs : ∃ span w1, startSpan p msg w = GoResult.returned (span, w1) := by
    unfold startSpan
    split
    · exact ⟨_, _, rfl⟩
    · rename_i shown heq
      exact absurd heq (h shown)
    · exact ⟨_, _, rfl⟩
  obtain ⟨span, w1, hs⟩ := hs
  simp only [publishMessageHTTP, hs]
  repeat' split
  all_goals exact ⟨_, rfl⟩

/-- C11 fails on the transport-error path.  With tracing on, a message
carrying a trace-id string and an application that cannot be reached: the
span is started and non-nil, `publishMessageHTTP` returns the retriable
error, and the history holds one span start and no `span.End()`.  The RPC
variant on the same failure does end its span. -/
theorem C11_span_left_open_on_transport_error :
    startSpan sampleUnreachableApp sampleTracedMessage [] =
      GoResult.returned (true,
        [Call.StartInternalCallbackSpan "pubsub/orders"
          "00-0af7651916cd43dd8448eb211c80319c-b7ad6b7169203331-01"]) ∧
    publishMessageHTTP sampleUnreachableApp sampleTracedMessage [] =
      (GoResult.returned (some (GoError.Errorf
          "error returned from app channel while sending pub/sub event to app: "
          (GoError.Retriable (GoError.errorsNew "connection refused")))),
        [Call.StartInternalCallbackSpan "pubsub/orders"
          "00-0af7651916cd43dd8448eb211c80319c-b7ad6b7169203331-01",
         Call.InvokeMethod (newInvokeRequest sampleTracedMessage),
         Call.PubsubIngressEvent "kafka" "retry" "" "orders"]) ∧
    spanStarts (publishMessageHTTP sampleUnreachableApp sampleTracedMessage []).2 = 1 ∧
    spanEnds (publishMessageHTTP sampleUnreachableApp sampleTracedMessage []).2 = 0 ∧
    spanEnds (publishMessageGRPC sampleUnreachableApp sampleTracedMessage []).2 = 1 := by
  decide

/-- C12 fails on a trace field that is not a string: for a message whose
trace-parent field holds a number, `publishMessageHTTP` panics at the type
assertion before the application is called, whatever the application would
reply. -/
theorem C12_non_string_trace_field_panics :
    publishMessageHTTP samplePublisher sampleBadTraceMessage [] = (GoResult.panicked, []) ∧
    publishMessageHTTP sampleUnreachableApp sampleBadTraceMessage [] =
      (GoResult.panicked, []) := by
  decide

/-! ## The access control filter -/

/-- C14: the access check, as a function of the backend name, the topic
and the scoping list alone, is true for every topic when the list is empty,
and for a non-empty list is true exactly when the topic is a member of the
list; membership is exact string equality, so a wildcard entry, a prefix
of the topic and the topic in another letter case do not allow it. -/
theorem C14_access_check_is_exact_membership :
    (∀ backendName topic : String, IsAllowed backendName topic [] = true) ∧
    (∀ (backendName topic : String) (scopingRule : List String), scopingRule ≠ [] →
      (IsAllowed backendName topic scopingRule = true ↔ topic ∈ scopingRule)) ∧
    IsAllowed "kafka" "orders" ["*"] = false ∧
    IsAllowed "kafka" "orders" ["ord"] = false ∧
    IsAllowed "kafka" "orders" ["orders*"] = false ∧
    IsAllowed "kafka" "orders" ["Orders"] = false ∧
    IsAllowed "kafka" "orders" ["payments", "orders"] = true := by
  refine ⟨fun _ _ => rfl, ?_, by decide, by decide, by decide, by decide, by decide⟩
  intro backendName topic scopingRule hne
  cases scopingRule with
  | nil => exact absurd rfl hne
  | cons t rest =>
    simp only [IsAllowed, List.any_eq_true, beq_iff_eq]
    constructor
    · rintro ⟨x, hx, rfl⟩
      exact hx
    · intro h
      exact ⟨topic, h, rfl⟩

theorem C14_access_check_is_exact_membership_witness :
    (IsAllowed "kafka" "orders" ["payments", "orders"] = true ↔
      "orders" ∈ ["payments", "orders"]) ∧
    (IsAllowed "kafka" "order" ["payments", "orders"] = true ↔
      "order" ∈ ["payments", "orders"]) :=
  ⟨C14_access_check_is_exact_membership.2.1 "kafka" "orders" ["payments", "orders"]
      (by decide),
    C14_access_check_is_exact_membership.2.1 "kafka" "order" ["payments", "orders"]
      (by decide)⟩

/-! ## RPC delivery before the application is called -/

/-- C16: in RPC delivery, when building the envelope fails
`publishMessageGRPC` returns that error as it is, and when obtaining the
application client fails it returns that error wrapped with the text
`error while getting app client`; in both cases `OnTopicEvent` is not
called and no ingress event is recorded (the history grows only by the
envelope call, and the client lookup), and the returned error carries the
retriable marker only if the collaborator's error already did. -/
theorem C16_grpc_early_errors_are_not_retriable (p : pubsub) (msg : SubscribedMessage)
    (w : World) :
    (∀ err : GoError,
      p.GRPCEnvelopeFromSubscriptionMessage msg w = Except.error err →
        publishMessageGRPC p msg w =
          (some err, w ++ [Call.GRPCEnvelopeFromSubscriptionMessage msg]) ∧
        ingressEvents (publishMessageGRPC p msg w).2 = ingressEvents w ∧
        carriesRetriable (publishMessageGRPC p msg w).1 = err.wrapsRetriable) ∧
    (∀ (envelope : TopicEventRequest) (span : Bool) (err : GoError),
      p.GRPCEnvelopeFromSubscriptionMessage msg w = Except.ok (envelope, span) →
      p.GetAppClient (w ++ [Call.GRPCEnvelopeFromSubscriptionMessage msg]) = some err →
        publishMessageGRPC p msg w =
          (some (GoError.Errorf "error while getting app client: " err),
            w ++ [Call.GRPCEnvelopeFromSubscriptionMessage msg, Call.GetAppClient]) ∧
        ingressEvents (publishMessageGRPC p msg w).2 = ingressEvents w ∧
        carriesRetriable (publishMessageGRPC p msg w).1 = err.wrapsRetriable) := by
  constructor
  · intro err he
    have hr : publishMessageGRPC p msg w =
        (some err, w ++ [Call.GRPCEnvelopeFromSubscriptionMessage msg]) := by
      simp [publishMessageGRPC, he]
    refine ⟨hr, ?_, ?_⟩
    · rw [hr]
      simp [ingressEvents]
    · rw [hr]
      rfl
  · intro envelope span err he hc
    have hr : publishMessageGRPC p msg w =
        (some (GoError.Errorf "error while getting app client: " err),
          w ++ [Call.GRPCEnvelopeFromSubscriptionMessage msg, Call.GetAppClient]) := by
      simp [publishMessageGRPC, he, hc]
    refine ⟨hr, ?_, ?_⟩
    · rw [hr]
      simp [ingressEvents]
    · rw [hr]
      rfl

theorem C16_grpc_early_errors_are_not_retriable_witness :
    (publishMessageGRPC sampleNoEnvelope (sampleMessage []) [] =
        (some (GoError.errorsNew "cloud event without data"),
          [] ++ [Call.GRPCEnvelopeFromSubscriptionMessage (sampleMessage [])]) ∧
      ingressEvents (publishMessageGRPC sampleNoEnvelope (sampleMessage []) []).2 =
        ingressEvents [] ∧
      carriesRetriable (publishMessageGRPC sampleNoEnvelope (sampleMessage []) []).1 =
        false) ∧
    (publishMessageGRPC sampleNoAppClient (sampleMessage []) [] =
        (some (GoError.Errorf "error while getting app client: "
            (GoError.errorsNew "no connection")),
          [] ++ [Call.GRPCEnvelopeFromSubscriptionMessage (sampleMessage []),
                 Call.GetAppClient]) ∧
      ingressEvents (publishMessageGRPC sampleNoAppClient (sampleMessage []) []).2 =
        ingressEvents [] ∧
      carriesRetriable (publishMessageGRPC sampleNoAppClient (sampleMessage []) []).1 =
        false) :=
  ⟨(C16_grpc_early_errors_are_not_retriable sampleNoEnvelope (sampleMessage []) []).1
      (GoError.errorsNew "cloud event without data") rfl,
    (C16_grpc_early_errors_are_not_retriable sampleNoAppClient (sampleMessage []) []).2
      { Id := "e1", Topic := "orders", PubsubName := "kafka", Data := [], Path := "/orders" }
      true (GoError.errorsNew "no connection") rfl rfl⟩

/-! ## Bulk publish forwards the request as it is -/

/-- C17: for a request whose backend resolves and is allowed, `BulkPublish`
hands the request itself, with its original topic and entries, to
`ApplyBulkPublishResiliency` exactly once, together with the component's own
bulk publisher when the component advertises the bulk-publish feature and
with the default bulk publisher built on the component otherwise; with a
resiliency wrapper that passes its request on, that publisher is run on the
original request.  No namespace prefix is added, whereas `Publish` on the
same namespace-scoped backend leaves the request with the topic
`namespace ++ topic`. -/
theorem C17_bulk_publish_forwards_request_unchanged (p : pubsub) (ps : PubsubItem)
    (req : BulkPublishRequest) (w : World)
    (hfound : p.GetPubSub req.PubsubName = some ps)
    (hallowed : p.isOperationAllowed req.PubsubName req.Topic ps.ScopedPublishings = true) :
    (∀ bp : BulkPublisher,
      FeatureBulkPublish ∈ ps.Component.Features → ps.Component.bulkPublisher = some bp →
        BulkPublish p req w =
          (GoResult.returned
            (p.ApplyBulkPublishResiliency req req.PubsubName bp
              (w ++ [Call.isOperationAllowed req.PubsubName req.Topic ps.ScopedPublishings,
                     Call.ApplyBulkPublishResiliency req req.PubsubName true])).1,
           (p.ApplyBulkPublishResiliency req req.PubsubName bp
              (w ++ [Call.isOperationAllowed req.PubsubName req.Topic ps.ScopedPublishings,
                     Call.ApplyBulkPublishResiliency req req.PubsubName true])).2) ∧
        ((∀ r k b v, p.ApplyBulkPublishResiliency r k b v = (b.BulkPublish r v, v)) →
          (BulkPublish p req w).1 =
            GoResult.returned (bp.BulkPublish req
              (w ++ [Call.isOperationAllowed req.PubsubName req.Topic ps.ScopedPublishings,
                     Call.ApplyBulkPublishResiliency req req.PubsubName true])))) ∧
    (FeatureBulkPublish ∉ ps.Component.Features →
      BulkPublish p req w =
        (GoResult.returned
          (p.ApplyBulkPublishResiliency req req.PubsubName
            (p.NewDefaultBulkPublisher ps.Component)
            (w ++ [Call.isOperationAllowed req.PubsubName req.Topic ps.ScopedPublishings,
                   Call.log LogLevel.debug,
                   Call.ApplyBulkPublishResiliency req req.PubsubName false])).1,
         (p.ApplyBulkPublishResiliency req req.PubsubName
            (p.NewDefaultBulkPublisher ps.Component)
            (w ++ [Call.isOperationAllowed req.PubsubName req.Topic ps.ScopedPublishings,
                   Call.log LogLevel.debug,
                   Call.ApplyBulkPublishResiliency req req.PubsubName false])).2) ∧
      ((∀ r k b v, p.ApplyBulkPublishResiliency r k b v = (b.BulkPublish r v, v)) →
        (BulkPublish p req w).1 =
          GoResult.returned ((p.NewDefaultBulkPublisher ps.Component).BulkPublish req
            (w ++ [Call.isOperationAllowed req.PubsubName req.Topic ps.ScopedPublishings,
                   Call.log LogLevel.debug,
                   Call.ApplyBulkPublishResiliency req req.PubsubName false])))) ∧
    (ps.NamespaceScoped = true →
      ∀ preq : PublishRequest, preq.PubsubName = req.PubsubName → preq.Topic = req.Topic →
        (Publish p preq w).2.1.Topic = p.namespaceName ++ req.Topic) := by
  refine ⟨?_, ?_, ?_⟩
  · intro bp hfeat hbp
    have hr : BulkPublish p req w =
        (GoResult.returned
          (p.ApplyBulkPublishResiliency req req.PubsubName bp
            (w ++ [Call.isOperationAllowed req.PubsubName req.Topic ps.ScopedPublishings,
                   Call.ApplyBulkPublishResiliency req req.PubsubName true])).1,
         (p.ApplyBulkPublishResiliency req req.PubsubName bp
            (w ++ [Call.isOperationAllowed req.PubsubName req.Topic ps.ScopedPublishings,
                   Call.ApplyBulkPublishResiliency req req.PubsubName true])).2) := by
      simp [BulkPublish, hfound, hallowed, hfeat, hbp]
    refine ⟨hr, ?_⟩
    intro hpass
    rw [hr, hpass]
  · intro hfeat
    have hr : BulkPublish p req w =
        (GoResult.returned
          (p.ApplyBulkPublishResiliency req req.PubsubName
            (p.NewDefaultBulkPublisher ps.Component)
            (w ++ [Call.isOperationAllowed req.PubsubName req.Topic ps.ScopedPublishings,
                   Call.log LogLevel.debug,
                   Call.ApplyBulkPublishResiliency req req.PubsubName false])).1,
         (p.ApplyBulkPublishResiliency req req.PubsubName
            (p.NewDefaultBulkPublisher ps.Component)
            (w ++ [Call.isOperationAllowed req.PubsubName req.Topic ps.ScopedPublishings,
                   Call.log LogLevel.debug,
                   Call.ApplyBulkPublishResiliency req req.PubsubName false])).2) := by
      simp [BulkPublish, hfound, hallowed, hfeat]
    refine ⟨hr, ?_⟩
    intro hpass
    rw [hr, hpass]
  · intro hns preq hname htopic
    have hf : p.GetPubSub preq.PubsubName = some ps := by rw [hname]; exact hfound
    have ha : p.isOperationAllowed preq.PubsubName preq.Topic ps.ScopedPublishings = true := by
      rw [hname, htopic]; exact hallowed
    simp only [Publish, hf, ha, hns]
    simp [htopic]

theorem C17_bulk_publish_forwards_request_unchanged_witness :
    BulkPublish samplePublisher (sampleBulkRequest "kafka" "orders") [] =
      (GoResult.returned ({ FailedEntries := [] }, none),
        [Call.isOperationAllowed "kafka" "orders" ["orders"], Call.log LogLevel.debug,
         Call.ApplyBulkPublishResiliency (sampleBulkRequest "kafka" "orders") "kafka" false]) ∧
    (Publish samplePublisher (sampleRequest "kafka" "orders") []).2.1.Topic = "ns1orders" :=
  ⟨((C17_bulk_publish_forwards_request_unchanged samplePublisher sampleItem
      (sampleBulkRequest "kafka" "orders") []
      (by simp [samplePublisher, samplePubsub, sampleBulkRequest])
      (by simp [samplePublisher, samplePubsub, sampleItem, sampleBulkRequest])).2.1
      (by simp [sampleItem, sampleComponent])).1,
    (C17_bulk_publish_forwards_request_unchanged samplePublisher sampleItem
      (sampleBulkRequest "kafka" "orders") []
      (by simp [samplePublisher, samplePubsub, sampleBulkRequest])
      (by simp [samplePublisher, samplePubsub, sampleItem, sampleBulkRequest])).2.2
      rfl (sampleRequest "kafka" "orders") rfl rfl⟩

/-! ## The two delivery variants agree -/

/-- C13: the HTTP and RPC variants give the same outcome for corresponding
replies.  For each reply status among SUCCESS, RETRY and DROP, a 2xx HTTP
reply whose decoded status is that status and an error-free RPC reply whose
status enum is that status give results of the same class (nil, an error
wrapping the retriable marker, or the message-dropped error) and each
records exactly one ingress event, with the same outcome tag and the same
extra tag.  For a status that neither variant knows, both give an error
wrapping the retriable marker and record the outcome tag `retry` with empty
extra tag. -/
theorem C13_http_and_grpc_agree_on_reply_status (pH : pubsub) (msgH : SubscribedMessage) (wH w1 : World) (spanH : Bool)
    (resp : InvokeMethodResponse)
    (pG : pubsub) (msgG : SubscribedMessage) (wG : World) (envelope : TopicEventRequest)
    (spanG : Bool) (res : Option TopicEventResponse)
    (hs : startSpan pH msgH wH = GoResult.returned (spanH, w1))
    (hi : pH.InvokeMethod (newInvokeRequest msgH) w1 = (resp, none))
    (h2xx : 200 ≤ resp.StatusCode ∧ resp.StatusCode ≤ 299)
    (he : pG.GRPCEnvelopeFromSubscriptionMessage msgG wG = Except.ok (envelope, spanG))
    (hc : pG.GetAppClient (wG ++ [Call.GRPCEnvelopeFromSubscriptionMessage msgG]) = none)
    (ho : pG.OnTopicEvent envelope msgG.Metadata
        (wG ++ [Call.GRPCEnvelopeFromSubscriptionMessage msgG, Call.GetAppClient]) =
      (res, none)) :
    (∀ s : ReplyStatus, pH.Decode resp.RawData = Except.ok s.text →
        GetStatus res = s.enumValue →
      ∃ (errH : Option GoError) (tag extra : String),
        (publishMessageHTTP pH msgH wH).1 = GoResult.returned errH ∧
        resultClass errH = resultClass (publishMessageGRPC pG msgG wG).1 ∧
        resultClass errH ≠ ResultClass.other ∧
        ingressEvents (publishMessageHTTP pH msgH wH).2 =
          ingressEvents wH ++ [(msgH.PubSub, tag, extra, msgH.Topic)] ∧
        ingressEvents (publishMessageGRPC pG msgG wG).2 =
          ingressEvents wG ++ [(msgG.PubSub, tag, extra, msgG.Topic)]) ∧
    (∀ status : String, pH.Decode resp.RawData = Except.ok status →
        (status ≠ "" ∧ status ≠ "SUCCESS" ∧ status ≠ "RETRY" ∧ status ≠ "DROP") →
        (GetStatus res ≠ TopicEventResponse_SUCCESS ∧
          GetStatus res ≠ TopicEventResponse_RETRY ∧
          GetStatus res ≠ TopicEventResponse_DROP) →
      ∃ errH : Option GoError,
        (publishMessageHTTP pH msgH wH).1 = GoResult.returned errH ∧
        resultClass errH = ResultClass.retriable ∧
        resultClass (publishMessageGRPC pG msgG wG).1 = ResultClass.retriable ∧
        ingressEvents (publishMessageHTTP pH msgH wH).2 =
          ingressEvents wH ++ [(msgH.PubSub, "retry", "", msgH.Topic)] ∧
        ingressEvents (publishMessageGRPC pG msgG wG).2 =
          ingressEvents wG ++ [(msgG.PubSub, "retry", "", msgG.Topic)]) := by
  obtain ⟨w4, hw4, hG⟩ := publishMessageGRPC_replied pG msgG wG envelope spanG res he hc ho
  constructor
  · intro s hdec hst
    obtain ⟨w3, hw3, hH⟩ :=
      publishMessageHTTP_decoded pH msgH wH w1 spanH resp s.text hs hi h2xx hdec
    cases s
    · have hH2 : publishMessageHTTP pH msgH wH =
          (GoResult.returned none,
            w3 ++ [Call.PubsubIngressEvent msgH.PubSub "success" "" msgH.Topic]) := by
        rw [hH]
        exact if_pos (Or.inr rfl)
      have hG2 : publishMessageGRPC pG msgG wG =
          (none, w4 ++ [Call.PubsubIngressEvent msgG.PubSub "success" "" msgG.Topic]) := by
        rw [hG]
        exact if_pos hst
      refine ⟨none, "success", "", ?_, ?_, ?_, ?_, ?_⟩
      · rw [hH2]
      · rw [hG2]
      · decide
      · rw [hH2, ingressEvents_event, hw3]
      · rw [hG2, ingressEvents_event, hw4]
    · have hne : ¬ (ReplyStatus.RETRY.text = "" ∨ ReplyStatus.RETRY.text = Success) := by
        decide
      have hns : ¬ (GetStatus res = TopicEventResponse_SUCCESS) := by rw [hst]; decide
      have hH2 : publishMessageHTTP pH msgH wH =
          (GoResult.returned (some (GoError.Errorf
              ("RETRY status returned from app while processing pub/sub event "
                ++ fmtV (CloudEventGet msgH.CloudEvent IDField) ++ ": ")
              GoError.RetriableNil)),
            w3 ++ [Call.PubsubIngressEvent msgH.PubSub "retry" "" msgH.Topic]) := by
        rw [hH, if_neg hne]
        exact if_pos rfl
      have hG2 : publishMessageGRPC pG msgG wG =
          (some (GoError.Errorf
              ("RETRY status returned from app while processing pub/sub event "
                ++ fmtV (CloudEventGet msgG.CloudEvent IDField) ++ ": ")
              GoError.RetriableNil),
            w4 ++ [Call.PubsubIngressEvent msgG.PubSub "retry" "" msgG.Topic]) := by
        rw [hG, if_neg hns]
        exact if_pos hst
      refine ⟨some (GoError.Errorf
          ("RETRY status returned from app while processing pub/sub event "
            ++ fmtV (CloudEventGet msgH.CloudEvent IDField) ++ ": ")
          GoError.RetriableNil), "retry", "", ?_, ?_, ?_, ?_, ?_⟩
      · rw [hH2]
      · rw [hG2]
        rfl
      · simp [resultClass, GoError.wrapsRetriable]
      · rw [hH2, ingressEvents_event, hw3]
      · rw [hG2, ingressEvents_event, hw4]
    · have hne : ¬ (ReplyStatus.DROP.text = "" ∨ ReplyStatus.DROP.text = Success) := by
        decide
      have hnr : ¬ (ReplyStatus.DROP.text = Retry) := by decide
      have hns : ¬ (GetStatus res = TopicEventResponse_SUCCESS) := by rw [hst]; decide
      have hnq : ¬ (GetStatus res = TopicEventResponse_RETRY) := by rw [hst]; decide
      have hH2 : publishMessageHTTP pH msgH wH =
          (GoResult.returned (some GoError.ErrMessageDropped),
            w3 ++ [Call.PubsubIngressEvent msgH.PubSub "drop" "success" msgH.Topic,
                   Call.log LogLevel.warn]) := by
        rw [hH, if_neg hne, if_neg hnr]
        exact if_pos rfl
      have hG2 : publishMessageGRPC pG msgG wG =
          (some GoError.ErrMessageDropped,
            w4 ++ [Call.log LogLevel.warn,
                   Call.PubsubIngressEvent msgG.PubSub "drop" "success" msgG.Topic]) := by
        rw [hG, if_neg hns, if_neg hnq]
        exact if_pos hst
      refine ⟨some GoError.ErrMessageDropped, "drop", "success", ?_, ?_, ?_, ?_, ?_⟩
      · rw [hH2]
      · rw [hG2]
      · decide
      · rw [hH2, ingressEvents_event_log, hw3]
      · rw [hG2, ingressEvents_log_event, hw4]
  · intro status hdec hstatus hst
    obtain ⟨w3, hw3, hH⟩ :=
      publishMessageHTTP_decoded pH msgH wH w1 spanH resp status hs hi h2xx hdec
    obtain ⟨ha, hb, hc2, hd⟩ := hstatus
    obtain ⟨hs0, hs1, hs2⟩ := hst
    have hne : ¬ (status = "" ∨ status = Success) := by
      rintro (h | h)
      · exact ha h
      · exact hb h
    have hnr : ¬ (status = Retry) := hc2
    have hnd : ¬ (status = Drop) := hd
    have hH2 : publishMessageHTTP pH msgH wH =
        (GoResult.returned (some (GoError.Errorf
            ("unknown status returned from app while processing pub/sub event "
              ++ fmtV (CloudEventGet msgH.CloudEvent IDField) ++ ", status: " ++ status
              ++ ", err: ")
            GoError.RetriableNil)),
          w3 ++ [Call.PubsubIngressEvent msgH.PubSub "retry" "" msgH.Topic]) := by
      rw [hH, if_neg hne, if_neg hnr, if_neg hnd]
    have hG2 : publishMessageGRPC pG msgG wG =
        (some (GoError.Errorf
            ("unknown status returned from app while processing pub/sub event "
              ++ fmtV (CloudEventGet msgG.CloudEvent IDField) ++ ", status: "
              ++ toString (GetStatus res) ++ ", err: ")
            GoError.RetriableNil),
          w4 ++ [Call.PubsubIngressEvent msgG.PubSub "retry" "" msgG.Topic]) := by
      rw [hG, if_neg hs0, if_neg hs1, if_neg hs2]
    refine ⟨some (GoError.Errorf
        ("unknown status returned from app while processing pub/sub event "
          ++ fmtV (CloudEventGet msgH.CloudEvent IDField) ++ ", status: " ++ status
          ++ ", err: ")
        GoError.RetriableNil), ?_, ?_, ?_, ?_, ?_⟩
    · rw [hH2]
    · simp [resultClass, GoError.wrapsRetriable]
    · rw [hG2]
      simp [resultClass, GoError.wrapsRetriable]
    · rw [hH2, ingressEvents_event, hw3]
    · rw [hG2, ingressEvents_event, hw4]

theorem C13_http_and_grpc_agree_on_reply_status_witness :
    ∃ (errH : Option GoError) (tag extra : String),
      (publishMessageHTTP
          (samplePubsub ({ StatusCode := 200, RawData := "\x7b\"status\":\"RETRY\"\x7d" }, none)
            (Except.ok "RETRY") (some { Status := 1 }, none))
          (sampleMessage []) []).1 = GoResult.returned errH ∧
      resultClass errH =
        resultClass (publishMessageGRPC
          (samplePubsub ({ StatusCode := 200, RawData := "\x7b\"status\":\"RETRY\"\x7d" }, none)
            (Except.ok "RETRY") (some { Status := 1 }, none))
          (sampleMessage []) []).1 ∧
      resultClass errH ≠ ResultClass.other ∧
      ingressEvents (publishMessageHTTP
          (samplePubsub ({ StatusCode := 200, RawData := "\x7b\"status\":\"RETRY\"\x7d" }, none)
            (Except.ok "RETRY") (some { Status := 1 }, none))
          (sampleMessage []) []).2 = ingressEvents [] ++ [("kafka", tag, extra, "orders")] ∧
      ingressEvents (publishMessageGRPC
          (samplePubsub ({ StatusCode := 200, RawData := "\x7b\"status\":\"RETRY\"\x7d" }, none)
            (Except.ok "RETRY") (some { Status := 1 }, none))
          (sampleMessage []) []).2 = ingressEvents [] ++ [("kafka", tag, extra, "orders")] :=
  (C13_http_and_grpc_agree_on_reply_status
    (samplePubsub ({ StatusCode := 200, RawData := "\x7b\"status\":\"RETRY\"\x7d" }, none)
      (Except.ok "RETRY") (some { Status := 1 }, none))
    (sampleMessage []) [] [] false
    { StatusCode := 200, RawData := "\x7b\"status\":\"RETRY\"\x7d" }
    (samplePubsub ({ StatusCode := 200, RawData := "\x7b\"status\":\"RETRY\"\x7d" }, none)
      (Except.ok "RETRY") (some { Status := 1 }, none))
    (sampleMessage []) []
    { Id := "e1", Topic := "orders", PubsubName := "kafka", Data := [], Path := "/orders" }
    true (some { Status := 1 }) rfl rfl (by decide) rfl rfl rfl).1 ReplyStatus.RETRY rfl rfl

/-! ## One ingress event per HTTP delivery -/

/-- C15: every call of `publishMessageHTTP` that returns records exactly
one ingress event; its outcome tag is one of `success`, `retry`, `drop`; the
tag is `retry` exactly when the returned error carries the retriable marker;
the tag is `success` only when the returned error is nil; and the extra tag
is non-empty only when it is `success` and the application gave a 2xx reply
whose decoded status is `DROP`. -/
theorem C15_http_records_exactly_one_ingress_event (p : pubsub) (msg : SubscribedMessage)
    (w w' : World) (err : Option GoError)
    (h : publishMessageHTTP p msg w = (GoResult.returned err, w')) :
    ∃ tag extra : String,
      ingressEvents w' = ingressEvents w ++ [(msg.PubSub, tag, extra, msg.Topic)] ∧
      (tag = "success" ∨ tag = "retry" ∨ tag = "drop") ∧
      (tag = "retry" ↔ carriesRetriable err = true) ∧
      (tag = "success" → err = none) ∧
      (extra ≠ "" →
        extra = "success" ∧
        ∃ (span : Bool) (w1 : World) (resp : InvokeMethodResponse),
          startSpan p msg w = GoResult.returned (span, w1) ∧
          p.InvokeMethod (newInvokeRequest msg) w1 = (resp, none) ∧
          (200 ≤ resp.StatusCode ∧ resp.StatusCode ≤ 299) ∧
          p.Decode resp.RawData = Except.ok "DROP") := by
  cases hs : startSpan p msg w with
  | panicked => simp [publishMessageHTTP, hs] at h
  | returned sw =>
    obtain ⟨span, w1⟩ := sw
    have hw := ingressEvents_startSpan p msg w w1 span hs
    rcases hi : p.InvokeMethod (newInvokeRequest msg) w1 with ⟨resp, e⟩
    simp only [publishMessageHTTP, hs, hi] at h
    cases e with
    | some e =>
      simp only [Prod.mk.injEq, GoResult.returned.injEq] at h
      obtain ⟨rfl, rfl⟩ := h
      refine ⟨"retry", "", ?_, by simp, by simp [carriesRetriable, NewRetriable, GoError.wrapsRetriable], by simp, by simp⟩
      simp only [ingressEvents_append, hw]
      generalize ingressEvents w = base
      simp [ingressEvents, ToLower_Retry]
    | none =>
      simp only at h
      have hev := ingressEvents_reply w w1 span (newInvokeRequest msg) msg.Topic resp.StatusCode hw
      revert hev h
      generalize (if span = true then
          w1 ++ [Call.InvokeMethod (newInvokeRequest msg)] ++
            [Call.AddAttributesToSpan msg.Topic,
             Call.UpdateSpanStatusFromHTTPStatus resp.StatusCode, Call.spanEnd]
        else w1 ++ [Call.InvokeMethod (newInvokeRequest msg)]) = w3
      intro h hev
      by_cases h2 : resp.StatusCode ≥ 200 ∧ resp.StatusCode ≤ 299
      · rw [if_pos h2] at h
        cases hd : p.Decode resp.RawData with
        | error derr =>
          rw [hd] at h
          simp only [ite_self, Prod.mk.injEq, GoResult.returned.injEq] at h
          obtain ⟨rfl, rfl⟩ := h
          refine ⟨"success", "", ?_, by simp, by simp [carriesRetriable], by simp, by simp⟩
          simp only [ingressEvents_append, hev]
          generalize ingressEvents w = base
          simp [ingressEvents, ToLower_Success]
        | ok status =>
          rw [hd] at h
          simp only at h
          by_cases ha : status = "" ∨ status = Success
          · rw [if_pos ha] at h
            simp only [Prod.mk.injEq, GoResult.returned.injEq] at h
            obtain ⟨rfl, rfl⟩ := h
            refine ⟨"success", "", ?_, by simp, by simp [carriesRetriable], by simp, by simp⟩
            simp only [ingressEvents_append, hev]
            generalize ingressEvents w = base
            simp [ingressEvents, ToLower_Success]
          · rw [if_neg ha] at h
            by_cases hr : status = Retry
            · rw [if_pos hr] at h
              simp only [Prod.mk.injEq, GoResult.returned.injEq] at h
              obtain ⟨rfl, rfl⟩ := h
              refine ⟨"retry", "", ?_, by simp,
                by simp [carriesRetriable, NewRetriable, GoError.wrapsRetriable], by simp,
                by simp⟩
              simp only [ingressEvents_append, hev]
              generalize ingressEvents w = base
              simp [ingressEvents, ToLower_Retry]
            · rw [if_neg hr] at h
              by_cases hdrop : status = Drop
              · rw [if_pos hdrop] at h
                simp only [Prod.mk.injEq, GoResult.returned.injEq] at h
                obtain ⟨rfl, rfl⟩ := h
                refine ⟨"drop", "success", ?_, by simp,
                  by simp [carriesRetriable, GoError.wrapsRetriable], by simp, ?_⟩
                · simp only [ingressEvents_append, hev]
                  generalize ingressEvents w = base
                  simp [ingressEvents, ToLower_Drop, ToLower_Success]
                · intro _
                  refine ⟨rfl, span, w1, resp, rfl, hi, h2, ?_⟩
                  rw [hd, hdrop]
                  rfl
              · rw [if_neg hdrop] at h
                simp only [Prod.mk.injEq, GoResult.returned.injEq] at h
                obtain ⟨rfl, rfl⟩ := h
                refine ⟨"retry", "", ?_, by simp,
                  by simp [carriesRetriable, NewRetriable, GoError.wrapsRetriable], by simp,
                  by simp⟩
                simp only [ingressEvents_append, hev]
                generalize ingressEvents w = base
                simp [ingressEvents, ToLower_Retry]
      · rw [if_neg h2] at h
        by_cases h404 : resp.StatusCode = StatusNotFound
        · rw [if_pos h404] at h
          simp only [Prod.mk.injEq, GoResult.returned.injEq] at h
          obtain ⟨rfl, rfl⟩ := h
          refine ⟨"drop", "", ?_, by simp, by simp [carriesRetriable], by simp, by simp⟩
          simp only [ingressEvents_append, hev]
          generalize ingressEvents w = base
          simp [ingressEvents, ToLower_Drop]
        · rw [if_neg h404] at h
          simp only [Prod.mk.injEq, GoResult.returned.injEq] at h
          obtain ⟨rfl, rfl⟩ := h
          refine ⟨"retry", "", ?_, by simp,
            by simp [carriesRetriable, NewRetriable, GoError.wrapsRetriable], by simp,
            by simp⟩
          simp only [ingressEvents_append, hev]
          generalize ingressEvents w = base
          simp [ingressEvents, ToLower_Retry]

theorem C15_http_records_exactly_one_ingress_event_witness :
    ∃ tag extra : String,
      ingressEvents
          [Call.InvokeMethod (newInvokeRequest (sampleMessage [])),
           Call.PubsubIngressEvent "kafka" "drop" "success" "orders",
           Call.log LogLevel.warn] =
        ingressEvents [] ++ [("kafka", tag, extra, "orders")] ∧
      (tag = "success" ∨ tag = "retry" ∨ tag = "drop") ∧
      (tag = "retry" ↔ carriesRetriable (some GoError.ErrMessageDropped) = true) ∧
      (tag = "success" → some GoError.ErrMessageDropped = none) ∧
      (extra ≠ "" →
        extra = "success" ∧
        ∃ (span : Bool) (w1 : World) (resp : InvokeMethodResponse),
          startSpan
              (samplePubsub ({ StatusCode := 200, RawData := "\x7b\"status\":\"DROP\"\x7d" }, none)
                (Except.ok "DROP") (none, none))
              (sampleMessage []) [] = GoResult.returned (span, w1) ∧
          (samplePubsub ({ StatusCode := 200, RawData := "\x7b\"status\":\"DROP\"\x7d" }, none)
              (Except.ok "DROP") (none, none)).InvokeMethod
            (newInvokeRequest (sampleMessage [])) w1 = (resp, none) ∧
          (200 ≤ resp.StatusCode ∧ resp.StatusCode ≤ 299) ∧
          (samplePubsub ({ StatusCode := 200, RawData := "\x7b\"status\":\"DROP\"\x7d" }, none)
              (Except.ok "DROP") (none, none)).Decode resp.RawData = Except.ok "DROP") :=
  C15_http_records_exactly_one_ingress_event
    (samplePubsub ({ StatusCode := 200, RawData := "\x7b\"status\":\"DROP\"\x7d" }, none)
      (Except.ok "DROP") (none, none))
    (sampleMessage []) []
    [Call.InvokeMethod (newInvokeRequest (sampleMessage [])),
     Call.PubsubIngressEvent "kafka" "drop" "success" "orders",
     Call.log LogLevel.warn]
    (some GoError.ErrMessageDropped) (by decide)

end Dapr
